import Mathlib

/-!
Formal model of the caesar precision date/time library.

TimeDelta is a signed duration with picosecond resolution, stored as a
128-bit integer tick count in the source; arithmetic on the tick count is
modelled over `Int` (the spec treats overflow of the 128-bit range as a
documented precondition, out of scope for correctness).  C++ integer
division and remainder truncate toward zero, so they are modelled with
`Int.tdiv` and `Int.tmod`.

GPSTime stores a picosecond tick count since the GPS epoch (1980-01-06)
and derives calendar components on demand through the vendored date
library (Howard Hinnant's civil-calendar algorithms), which is modelled
here by `days_from_civil` / `civil_from_days`.
-/

namespace Caesar

/-- Number of picosecond ticks in one second. -/
def psPerSecond : Int := 1000000000000

/-- Number of picosecond ticks in one minute. -/
def psPerMinute : Int := 60 * psPerSecond

/-- Number of picosecond ticks in one hour. -/
def psPerHour : Int := 3600 * psPerSecond

/-- Number of picosecond ticks in one day. -/
def psPerDay : Int := 86400 * psPerSecond

/-- Number of picosecond ticks in one millisecond. -/
def psPerMillisecond : Int := 1000000000

/-- Number of picosecond ticks in one microsecond. -/
def psPerMicrosecond : Int := 1000000

/-- Number of picosecond ticks in one nanosecond. -/
def psPerNanosecond : Int := 1000

/-- A signed duration with picosecond resolution (class `TimeDelta`).
The stored value is the tick count `duration_` of picoseconds. -/
structure TimeDelta where
  count : Int
deriving DecidableEq, Repr

instance : Add TimeDelta := ⟨fun a b => ⟨a.count + b.count⟩⟩

instance : Sub TimeDelta := ⟨fun a b => ⟨a.count - b.count⟩⟩

instance : Neg TimeDelta := ⟨fun a => ⟨-a.count⟩⟩

instance : LT TimeDelta := ⟨fun a b => a.count < b.count⟩

instance : LE TimeDelta := ⟨fun a b => a.count ≤ b.count⟩

instance (a b : TimeDelta) : Decidable (a < b) :=
  inferInstanceAs (Decidable (a.count < b.count))

instance (a b : TimeDelta) : Decidable (a ≤ b) :=
  inferInstanceAs (Decidable (a.count ≤ b.count))

instance {e a : Type} [DecidableEq e] [DecidableEq a] : DecidableEq (Except e a) := fun x y =>
  match x, y with
  | .ok v, .ok w =>
    if h : v = w then isTrue (by rw [h]) else isFalse (fun hc => by cases hc; exact h rfl)
  | .error v, .error w =>
    if h : v = w then isTrue (by rw [h]) else isFalse (fun hc => by cases hc; exact h rfl)
  | .ok _, .error _ => isFalse (fun hc => by cases hc)
  | .error _, .ok _ => isFalse (fun hc => by cases hc)

/-- Zero-length duration (default constructor `TimeDelta()`). -/
def TimeDelta.zero : TimeDelta := ⟨0⟩

/-- Factory `TimeDelta::days` for an integral argument
(one day is exactly 86400 seconds). -/
def TimeDelta.days (d : Int) : TimeDelta := ⟨d * psPerDay⟩

/-- Factory `TimeDelta::hours` for an integral argument. -/
def TimeDelta.hours (h : Int) : TimeDelta := ⟨h * psPerHour⟩

/-- Factory `TimeDelta::minutes` for an integral argument. -/
def TimeDelta.minutes (m : Int) : TimeDelta := ⟨m * psPerMinute⟩

/-- Factory `TimeDelta::seconds` for an integral argument. -/
def TimeDelta.seconds (s : Int) : TimeDelta := ⟨s * psPerSecond⟩

/-- Factory `TimeDelta::milliseconds` for an integral argument. -/
def TimeDelta.milliseconds (ms : Int) : TimeDelta := ⟨ms * psPerMillisecond⟩

/-- Factory `TimeDelta::microseconds` for an integral argument. -/
def TimeDelta.microseconds (us : Int) : TimeDelta := ⟨us * psPerMicrosecond⟩

/-- Factory `TimeDelta::nanoseconds` for an integral argument. -/
def TimeDelta.nanoseconds (ns : Int) : TimeDelta := ⟨ns * psPerNanosecond⟩

/-- Factory `TimeDelta::picoseconds` for an integral argument. -/
def TimeDelta.picoseconds (ps : Int) : TimeDelta := ⟨ps⟩

/-- Remainder operator `operator%(const TimeDelta&, const TimeDelta&)`:
`absl::int128` `%` is the C++ truncating remainder, i.e. `Int.tmod`. -/
def TimeDelta.mod (lhs rhs : TimeDelta) : TimeDelta := ⟨lhs.count.tmod rhs.count⟩

/-- Free function `abs(const TimeDelta&)`, via `std::chrono::abs`
(which returns `d >= zero ? d : -d`). -/
def TimeDelta.abs (dt : TimeDelta) : TimeDelta :=
  if TimeDelta.zero ≤ dt then dt else -dt

/-- Free function `trunc(dt, period) = dt - (dt % period)`. -/
def TimeDelta.trunc (dt period : TimeDelta) : TimeDelta :=
  dt - TimeDelta.mod dt period

/-- Free function `floor(dt, period)`:
`t <= dt ? t : t - abs(period)` with `t = trunc(dt, period)`. -/
def TimeDelta.floor (dt period : TimeDelta) : TimeDelta :=
  let t := TimeDelta.trunc dt period
  if t ≤ dt then t else t - TimeDelta.abs period

/-- Free function `ceil(dt, period)`:
`t >= dt ? t : t + abs(period)` with `t = trunc(dt, period)`. -/
def TimeDelta.ceil (dt period : TimeDelta) : TimeDelta :=
  let t := TimeDelta.trunc dt period
  if dt ≤ t then t else t + TimeDelta.abs period

/-- Free function `round(dt, period)`: picks the nearer of `floor` and
`floor + abs(period)`; on a tie returns the one whose multiple index
`lower.count() / period.count()` has an even low bit (`& 1` on the
two's-complement quotient is its value modulo 2). -/
def TimeDelta.round (dt period : TimeDelta) : TimeDelta :=
  let lower := TimeDelta.floor dt period
  let upper := lower + TimeDelta.abs period
  let lowerDiff := dt - lower
  let upperDiff := upper - dt
  if lowerDiff < upperDiff then lower
  else if upperDiff < lowerDiff then upper
  else if (lower.count.tdiv period.count) % 2 = 1 then upper else lower

/-- Leap-year test of the date library (`date::year::is_leap`):
`y % 4 == 0 && (y % 100 != 0 || y % 400 == 0)` with C++ truncating `%`. -/
def is_leap (y : Int) : Bool :=
  y.tmod 4 == 0 && (y.tmod 100 != 0 || y.tmod 400 == 0)

/-- Number of days of month `m` of year `y`, as computed by
`date::year_month_day_last::day()`: a fixed table except for February of a
leap year.  This models the `last_day_in_month` lambda of the source. -/
def last_day_in_month (y m : Int) : Int :=
  let table : List Int := [31, 28, 31, 30, 31, 30, 31, 31, 30, 31, 30, 31]
  if m != 2 || !(is_leap y) then table.getD (m - 1).toNat 0 else 29

/-- Days since 1970-01-01 of civil date `(y, m, d)`, as computed by the
date library (`date::local_days(date::year_month_day)`, Hinnant's
`days_from_civil` algorithm).  C++ divisions of nonnegative quantities are
written with `Int.tdiv`; the `(y >= 0 ? y : y - 399) / 400` idiom computes
the floor of `y / 400` by truncating division. -/
def days_from_civil (y m d : Int) : Int :=
  let ys := y - (if m ≤ 2 then 1 else 0)
  let era := (if 0 ≤ ys then ys else ys - 399).tdiv 400
  let yoe := ys - era * 400
  let doy := (153 * (if 2 < m then m - 3 else m + 9) + 2).tdiv 5 + d - 1
  let doe := yoe * 365 + yoe.tdiv 4 - yoe.tdiv 100 + doy
  era * 146097 + doe - 719468

/-- Civil date `(y, m, d)` of a count of days since 1970-01-01, as
computed by the date library (`date::year_month_day(sys_days)`, Hinnant's
`civil_from_days` algorithm). -/
def civil_from_days (z0 : Int) : Int × Int × Int :=
  let z := z0 + 719468
  let era := (if 0 ≤ z then z else z - 146096).tdiv 146097
  let doe := z - era * 146097
  let yoe := (doe - doe.tdiv 1460 + doe.tdiv 36524 - doe.tdiv 146096).tdiv 365
  let y := yoe + era * 400
  let doy := doe - (365 * yoe + yoe.tdiv 4 - yoe.tdiv 100)
  let mp := (5 * doy + 2).tdiv 153
  let d := doy - (153 * mp + 2).tdiv 5 + 1
  let m := mp + (if mp < 10 then 3 else -9)
  (y + (if m ≤ 2 then 1 else 0), m, d)

/-- Days from 1970-01-01 (the `date::local_t` epoch) to 1980-01-06 (the
GPS epoch): models `date::clock_cast` between `date::gps_clock` and
`date::local_t`, which is a fixed shift by this many days. -/
def gpsEpochDays : Int := 3657

/-- A GPS-time instant (class `GPSTime`): the stored `time_point_` tick
count of picoseconds since the GPS epoch 1980-01-06. -/
structure GPSTime where
  timePoint : Int
deriving DecidableEq, Repr

/-- Tick count computed by the component constructor `GPSTime::GPSTime`
after validation: days are converted to the GPS epoch through
`date::clock_cast` and the time of day is added in picoseconds. -/
def gpsTicksOf (year month day hour minute second microsecond picosecond : Int) : Int :=
  (days_from_civil year month day - gpsEpochDays) * psPerDay +
    hour * psPerHour + minute * psPerMinute + second * psPerSecond +
    microsecond * psPerMicrosecond + picosecond

/-- Component constructor `GPSTime::GPSTime(year, ..., picosecond)`: the
source throws `std::invalid_argument` on the first component out of range,
modelled by `Except.error`; on success the stored tick count is exact. -/
def GPSTime.fromComponents (year month day hour minute second microsecond picosecond : Int) :
    Except String GPSTime :=
  if year < 1 ∨ 9999 < year then .error "invalid year"
  else if month < 1 ∨ 12 < month then .error "invalid month"
  else if day < 1 ∨ last_day_in_month year month < day then .error "invalid day"
  else if hour < 0 ∨ 24 ≤ hour then .error "invalid hour"
  else if minute < 0 ∨ 60 ≤ minute then .error "invalid minute"
  else if second < 0 ∨ 60 ≤ second then .error "invalid second"
  else if microsecond < 0 ∨ 1000000 ≤ microsecond then .error "invalid microsecond"
  else if picosecond < 0 ∨ 1000000 ≤ picosecond then .error "invalid picosecond"
  else .ok ⟨gpsTicksOf year month day hour minute second microsecond picosecond⟩

/-- Earliest valid GPSTime, `GPSTime::min() = GPSTime(1, 1, 1, 0, 0, 0)`. -/
def GPSTime.minValue : GPSTime := ⟨gpsTicksOf 1 1 1 0 0 0 0 0⟩

/-- Latest valid GPSTime,
`GPSTime::max() = GPSTime(9999, 12, 31, 23, 59, 59, 999999, 999999)`. -/
def GPSTime.maxValue : GPSTime := ⟨gpsTicksOf 9999 12 31 23 59 59 999999 999999⟩

/-- Constructor `GPSTime::GPSTime(const TimePoint&)`: throws
`std::out_of_range` (modelled by `Except.error`) when the time point is
below `GPSTime::min()` or above `GPSTime::max()`. -/
def GPSTime.fromTimePoint (tp : Int) : Except String GPSTime :=
  if tp < GPSTime.minValue.timePoint ∨ GPSTime.maxValue.timePoint < tp then
    .error "input time point is outside of valid GPSTime range"
  else .ok ⟨tp⟩

/-- Accessor `GPSTime::date()`: converts the timestamp to the Unix epoch
(`date::clock_cast<date::local_t>`, a fixed shift), rounds down to whole
days (`std::chrono::floor`, i.e. floor division), and converts to a
calendar date. -/
def GPSTime.date (t : GPSTime) : Int × Int × Int :=
  let unix_time := t.timePoint + gpsEpochDays * psPerDay
  let unix_days := unix_time.fdiv psPerDay
  civil_from_days unix_days

/-- Accessor `GPSTime::year()`. -/
def GPSTime.year (t : GPSTime) : Int := t.date.1

/-- Accessor `GPSTime::month()`. -/
def GPSTime.month (t : GPSTime) : Int := t.date.2.1

/-- Accessor `GPSTime::day()`. -/
def GPSTime.day (t : GPSTime) : Int := t.date.2.2

/-- Accessor `GPSTime::time_of_day()`, reduced to its stored duration:
the tick count minus the number of whole days (`std::chrono::floor`),
i.e. the nonnegative time since midnight in picoseconds. -/
def GPSTime.timeOfDay (t : GPSTime) : Int :=
  t.timePoint - psPerDay * (t.timePoint.fdiv psPerDay)

/-- Accessor `GPSTime::hour()` (`date::hh_mm_ss` splits the time of day
by successive truncating `duration_cast`). -/
def GPSTime.hour (t : GPSTime) : Int := t.timeOfDay.tdiv psPerHour

/-- Accessor `GPSTime::minute()`. -/
def GPSTime.minute (t : GPSTime) : Int :=
  (t.timeOfDay - t.hour * psPerHour).tdiv psPerMinute

/-- Accessor `GPSTime::second()`. -/
def GPSTime.second (t : GPSTime) : Int :=
  (t.timeOfDay - t.hour * psPerHour - t.minute * psPerMinute).tdiv psPerSecond

/-- Subseconds part of `GPSTime::time_of_day()` (`hh_mm_ss::subseconds`). -/
def GPSTime.subseconds (t : GPSTime) : Int :=
  t.timeOfDay - t.hour * psPerHour - t.minute * psPerMinute - t.second * psPerSecond

/-- Accessor `GPSTime::microsecond()`: truncates the subseconds to
microseconds. -/
def GPSTime.microsecond (t : GPSTime) : Int := t.subseconds.tdiv psPerMicrosecond

/-- Accessor `GPSTime::picosecond()`: subseconds minus the whole
microseconds. -/
def GPSTime.picosecond (t : GPSTime) : Int :=
  t.subseconds - t.subseconds.tdiv psPerMicrosecond * psPerMicrosecond

/-- Decimal digit character for a value below 10. -/
def digitChar (n : Nat) : Char := Char.ofNat (48 + n)

/-- Decimal digit characters of a natural number, fuel-structured so that
the recursion (dividing by ten) terminates; `fuel` is an upper bound on
the number of steps and never runs out when it exceeds `n`. -/
def natDigitsAux (fuel n : Nat) : List Char :=
  match fuel with
  | 0 => []
  | fuel + 1 =>
    if n < 10 then [digitChar n]
    else natDigitsAux fuel (n / 10) ++ [digitChar (n % 10)]

/-- Decimal digit characters of a natural number (the output of integer
formatting with `fmt::format` / `operator<<`). -/
def natDigits (n : Nat) : List Char := natDigitsAux (n + 1) n

/-- Left-pad with zeros to a field width, as the `{:0Nd}` / `{:0>N}`
format specifications do. -/
def zeroPad (w : Nat) (l : List Char) : List Char :=
  List.replicate (w - l.length) '0' ++ l

/-- Strip trailing zero characters from a string: the source finds the
last character that is not `0` and keeps everything up to it, returning
the string unchanged when every character is `0` (`find_last_not_of`
returned `npos`). -/
def trimTrailingZeros (l : List Char) : List Char :=
  if l.all (fun c => c == '0') then l
  else (l.reverse.dropWhile (fun c => c == '0')).reverse

/-- Stream insertion `operator<<(std::ostream&, const TimeDelta&)`,
produced character list; `showpos` and `showpoint` are the stream flags
read by the source.  The magnitude is decomposed greedily into days,
hours and minutes (each printed only when the magnitude reaches one of
that unit), then the remainder is printed in the coarsest SI unit the
magnitude reaches, with its fractional digits zero-padded and
trailing-zero-trimmed. -/
def TimeDelta.toChars (dt : TimeDelta) (showpos showpoint : Bool) : List Char :=
  let sign : List Char :=
    if dt < TimeDelta.zero then ['-'] else if showpos then ['+'] else []
  let a := TimeDelta.abs dt
  let frac0 := a.count
  let dayPart : List Char × Int :=
    if TimeDelta.days 1 ≤ a then
      (natDigits (frac0.tdiv (TimeDelta.days 1).count).toNat ++ ['d'],
        frac0.tmod (TimeDelta.days 1).count)
    else ([], frac0)
  let hourPart : List Char × Int :=
    if TimeDelta.hours 1 ≤ a then
      (dayPart.1 ++ natDigits (dayPart.2.tdiv (TimeDelta.hours 1).count).toNat ++ ['h'],
        dayPart.2.tmod (TimeDelta.hours 1).count)
    else (dayPart.1, dayPart.2)
  let minutePart : List Char × Int :=
    if TimeDelta.minutes 1 ≤ a then
      (hourPart.1 ++ natDigits (hourPart.2.tdiv (TimeDelta.minutes 1).count).toNat ++ ['m'],
        hourPart.2.tmod (TimeDelta.minutes 1).count)
    else (hourPart.1, hourPart.2)
  let unit : Int × Nat × List Char :=
    if TimeDelta.seconds 1 ≤ a then ((TimeDelta.seconds 1).count, 12, ['s'])
    else if TimeDelta.milliseconds 1 ≤ a then ((TimeDelta.milliseconds 1).count, 9, ['m', 's'])
    else if TimeDelta.microseconds 1 ≤ a then ((TimeDelta.microseconds 1).count, 6, ['u', 's'])
    else if TimeDelta.nanoseconds 1 ≤ a then ((TimeDelta.nanoseconds 1).count, 3, ['n', 's'])
    else ((TimeDelta.picoseconds 1).count, 0, ['p', 's'])
  let whole := minutePart.2.tdiv unit.1
  let frac := minutePart.2.tmod unit.1
  let fracPart : List Char :=
    if frac ≠ 0 then '.' :: trimTrailingZeros (zeroPad unit.2.1 (natDigits frac.toNat))
    else if showpoint then ['.', '0'] else []
  sign ++ minutePart.1 ++ natDigits whole.toNat ++ fracPart ++ unit.2.2

/-- Stream insertion with default formatting flags, as a string. -/
def TimeDelta.format (dt : TimeDelta) : String :=
  String.mk (TimeDelta.toChars dt false false)

/-- Character list of `GPSTime::operator std::string()`: the
`YYYY-MM-DDThh:mm:ss` part is always produced; when the subsecond
components are not both zero, the 6+6 zero-padded digit groups are
appended after a dot with trailing zeros stripped. -/
def GPSTime.toChars (t : GPSTime) : List Char :=
  let ymdhms :=
    zeroPad 4 (natDigits t.year.toNat) ++ ['-'] ++
    zeroPad 2 (natDigits t.month.toNat) ++ ['-'] ++
    zeroPad 2 (natDigits t.day.toNat) ++ ['T'] ++
    zeroPad 2 (natDigits t.hour.toNat) ++ [':'] ++
    zeroPad 2 (natDigits t.minute.toNat) ++ [':'] ++
    zeroPad 2 (natDigits t.second.toNat)
  let us := t.microsecond
  let ps := t.picosecond
  if us = 0 ∧ ps = 0 then ymdhms
  else ymdhms ++ ['.'] ++
    trimTrailingZeros (zeroPad 6 (natDigits us.toNat) ++ zeroPad 6 (natDigits ps.toNat))

/-- Conversion `GPSTime::operator std::string()`. -/
def GPSTime.toString (t : GPSTime) : String := String.mk t.toChars

/-- Consume exactly `n` decimal digits from the front of `l`, returning
their value (as `sscanf` does on a fixed-width field) and the rest. -/
def readDigitsAux (acc : Nat) : Nat → List Char → Option (Nat × List Char)
  | 0, l => some (acc, l)
  | _ + 1, [] => none
  | n + 1, c :: r =>
    if c.isDigit then readDigitsAux (acc * 10 + (c.toNat - 48)) n r else none

/-- Consume exactly `n` decimal digits. -/
def readDigits (n : Nat) (l : List Char) : Option (Nat × List Char) :=
  readDigitsAux 0 n l

/-- Consume one expected character. -/
def expectChar (c : Char) : List Char → Option (List Char)
  | [] => none
  | c1 :: r => if c1 == c then some r else none

/-- Value of a decimal digit string. -/
def digitsVal (l : List Char) : Nat :=
  l.foldl (fun a c => a * 10 + (c.toNat - 48)) 0

/-- Shape match of the v1 GPSTime datetime grammar, the regex
`(\d-digit groups) YYYY-MM-DD 'T' hh:mm:ss ['.' 1..12 digits]` matched
against the whole input; returns the numeric fields and the subsecond
digit characters (empty when the optional group is absent).  A full match
fails when more than 12 subsecond digits are present, because the greedy
12-digit group cannot consume them all. -/
def GPSTime.parseChars (l : List Char) :
    Option (Nat × Nat × Nat × Nat × Nat × Nat × List Char) := do
  let (y, r) ← readDigits 4 l
  let r ← expectChar '-' r
  let (mo, r) ← readDigits 2 r
  let r ← expectChar '-' r
  let (d, r) ← readDigits 2 r
  let r ← expectChar 'T' r
  let (h, r) ← readDigits 2 r
  let r ← expectChar ':' r
  let (mi, r) ← readDigits 2 r
  let r ← expectChar ':' r
  let (s, r) ← readDigits 2 r
  match r with
  | [] => some (y, mo, d, h, mi, s, [])
  | '.' :: ds =>
    if 1 ≤ ds.length ∧ ds.length ≤ 12 ∧ ds.all Char.isDigit then
      some (y, mo, d, h, mi, s, ds)
    else none
  | _ => none

/-- Constructor `GPSTime::GPSTime(std::string_view)` as the v1 source
executes it: line 16 of `gpstime.cpp` calls
`std::regex_match(datetime_string.data(), pattern)` without the
`match_results` out-argument, so the local `match` object is never
populated.  An input that fails the pattern is rejected with
`std::invalid_argument("bad datetime string")` before `match` is touched,
the constructor's one defined outcome, modeled as `some (.error ...)`.
On a matching input the code goes on to read `match[1]`, `match[2].first`
and `match[4]` from the unready `match_results` (and `std::sub_match` has
no `data()` member at all), so the program has no defined result on that
path: modeled as `none`. -/
def GPSTime.fromString (s : String) : Option (Except String GPSTime) :=
  match GPSTime.parseChars s.toList with
  | none => some (.error "bad datetime string")
  | some _ => none

/-- Success path of the v1 string constructor as written (lines 20-42 of
`gpstime.cpp`, the computation the v2 `DateTime` constructor performs
correctly): read the capture groups of the datetime pattern, right-pad the
subsecond digits with zeros to 12 characters, scan them as `%6d%6d`
microsecond/picosecond groups, and delegate to the component constructor.
Because `regex_match` is called without the out-argument, the v1 program
never actually obtains these capture groups; the definition states what
the code attempts to compute, so the divergence of the implemented
behavior from the claimed string round trip can be pinned to the missing
argument. -/
def GPSTime.fromStringIntended (s : String) : Except String GPSTime :=
  match GPSTime.parseChars s.toList with
  | none => .error "bad datetime string"
  | some (y, mo, d, h, mi, sec, ds) =>
    let padded := ds ++ List.replicate (12 - ds.length) '0'
    let us := digitsVal (padded.take 6)
    let ps := digitsVal (padded.drop 6)
    GPSTime.fromComponents y mo d h mi sec us ps

/-- A broken-down date and time with picosecond resolution (class
`DateTime` of the v2 iteration): ten validated components stored
directly (the source keeps them in a `std::array<int, 10>`). -/
structure DateTime where
  year : Int
  month : Int
  day : Int
  hour : Int
  minute : Int
  second : Int
  millisecond : Int
  microsecond : Int
  nanosecond : Int
  picosecond : Int
deriving DecidableEq, Repr

/-- Component constructor `DateTime::DateTime(year, ..., picosecond)`:
throws `std::invalid_argument` (modelled by `Except.error`) on the first
component out of range. -/
def DateTime.fromComponents
    (year month day hour minute second millisecond microsecond nanosecond picosecond : Int) :
    Except String DateTime :=
  if year < 1 ∨ 9999 < year then .error "invalid year"
  else if month < 1 ∨ 12 < month then .error "invalid month"
  else if day < 1 ∨ last_day_in_month year month < day then .error "invalid day"
  else if hour < 0 ∨ 24 ≤ hour then .error "invalid hour"
  else if minute < 0 ∨ 60 ≤ minute then .error "invalid minute"
  else if second < 0 ∨ 60 ≤ second then .error "invalid second"
  else if millisecond < 0 ∨ 1000 ≤ millisecond then .error "invalid millisecond"
  else if microsecond < 0 ∨ 1000 ≤ microsecond then .error "invalid microsecond"
  else if nanosecond < 0 ∨ 1000 ≤ nanosecond then .error "invalid nanosecond"
  else if picosecond < 0 ∨ 1000 ≤ picosecond then .error "invalid picosecond"
  else .ok ⟨year, month, day, hour, minute, second,
            millisecond, microsecond, nanosecond, picosecond⟩

/-- Consume the v2 date/time separator, the regex alternative `(T| )`. -/
def expectSep : List Char → Option (List Char)
  | [] => none
  | c :: r => if c == 'T' ∨ c == ' ' then some r else none

/-- Shape match of the v2 DateTime grammar: like the v1 pattern but the
date/time separator is `'T'` or `' '` (regex alternative `(T| )`). -/
def DateTime.parseChars (l : List Char) :
    Option (Nat × Nat × Nat × Nat × Nat × Nat × List Char) := do
  let (y, r) ← readDigits 4 l
  let r ← expectChar '-' r
  let (mo, r) ← readDigits 2 r
  let r ← expectChar '-' r
  let (d, r) ← readDigits 2 r
  let r ← expectSep r
  let (h, r) ← readDigits 2 r
  let r ← expectChar ':' r
  let (mi, r) ← readDigits 2 r
  let r ← expectChar ':' r
  let (s, r) ← readDigits 2 r
  match r with
  | [] => some (y, mo, d, h, mi, s, [])
  | '.' :: ds =>
    if 1 ≤ ds.length ∧ ds.length ≤ 12 ∧ ds.all Char.isDigit then
      some (y, mo, d, h, mi, s, ds)
    else none
  | _ => none

/-- Constructor `DateTime::DateTime(std::string_view)`: matches the
datetime pattern, right-pads the subsecond digits with zeros to 12
characters, scans them as `%3d%3d%3d%3d` groups, and delegates to the
component constructor. -/
def DateTime.fromString (s : String) : Except String DateTime :=
  match DateTime.parseChars s.toList with
  | none => .error "bad datetime string format"
  | some (y, mo, d, h, mi, sec, ds) =>
    let padded := ds ++ List.replicate (12 - ds.length) '0'
    let ms := digitsVal (padded.take 3)
    let us := digitsVal ((padded.drop 3).take 3)
    let ns := digitsVal ((padded.drop 6).take 3)
    let ps := digitsVal (padded.drop 9)
    DateTime.fromComponents y mo d h mi sec ms us ns ps

/-- Day-of-era at which shifted year `k` of a 400-year era starts
(verification-side reformulation of the start-of-year offset used by the
civil-calendar algorithms). -/
def yearStartDoe (k : Nat) : Nat := 365 * k + k / 4 - k / 100

/-- Number of days of shifted year `k` of an era. -/
def eraYearLen (k : Nat) : Nat :=
  (if k = 399 then 146097 else yearStartDoe (k + 1)) - yearStartDoe k

/-- Leap-day correction applied by `civil_from_days` to a day-of-era
(the `doe - doe/1460 + doe/36524 - doe/146096` term), over `Nat`. -/
def gDoe (x : Nat) : Nat := x - x / 1460 + x / 36524 - x / 146096

/-- Day-of-shifted-year at which shifted month `mp` starts
(the `(153 * mp + 2) / 5` term of the civil-calendar algorithms). -/
def monthStartDoy (mp : Nat) : Nat := (153 * mp + 2) / 5

/-- Maximal number of days of shifted month `mp` (March-based month
numbering; February, `mp = 11`, has up to 29 days). -/
def shiftedMonthLen (mp : Nat) : Nat :=
  [31, 30, 31, 30, 31, 31, 30, 31, 30, 31, 31, 29].getD mp 0

/-- The computation of `days_from_civil` restricted to the nonnegative
plane, over `Nat`: input is the shifted year, shifted month and zero-based
day, output is the day count shifted by 719468. -/
def daysFromCivilN (ys mp d0 : Nat) : Nat :=
  (ys / 400) * 146097 + yearStartDoe (ys % 400) + monthStartDoy mp + d0

/-- The computation of `civil_from_days` restricted to the nonnegative
plane, over `Nat`: input is the day count shifted by 719468, output is the
shifted year, shifted month and zero-based day. -/
def civilFromDaysN (zp : Nat) : Nat × Nat × Nat :=
  let doe := zp % 146097
  let yoe := gDoe doe / 365
  let doy := doe - yearStartDoe yoe
  let mp := (5 * doy + 2) / 153
  ((zp / 146097) * 400 + yoe, mp, doy - monthStartDoy mp)

/-- Number of days of month `nm` of a year whose leap flag is `L`, over
`Nat` (verification-side reformulation of `last_day_in_month`). -/
def ldimN (nm : Nat) (L : Bool) : Nat :=
  if nm = 2 then (if L then 29 else 28)
  else [31, 28, 31, 30, 31, 30, 31, 31, 30, 31, 30, 31].getD (nm - 1) 0

/-- Prefix increment `GPSTime::operator++()`: adds one tick to the stored
time point in place and returns the modified object; the source performs
no range check here. -/
def GPSTime.preIncrement (t : GPSTime) : GPSTime := ⟨t.timePoint + 1⟩

/-- Prefix decrement `GPSTime::operator--()`: subtracts one tick in
place, with no range check. -/
def GPSTime.preDecrement (t : GPSTime) : GPSTime := ⟨t.timePoint - 1⟩

/-- Postfix increment `GPSTime::operator++(int)`: the member leaves
`time_point_` untouched and returns `GPSTime(time_point_ + Duration(1))`
built through the range-checked time-point constructor.  The result pair
holds the operand state after evaluation and the expression value. -/
def GPSTime.postIncrement (t : GPSTime) : Except String (GPSTime × GPSTime) :=
  match GPSTime.fromTimePoint (t.timePoint + 1) with
  | .error e => .error e
  | .ok v => .ok (t, v)

/-- Postfix decrement `GPSTime::operator--(int)`: leaves the operand
untouched and returns `GPSTime(time_point_ - Duration(1))` through the
range-checked constructor. -/
def GPSTime.postDecrement (t : GPSTime) : Except String (GPSTime × GPSTime) :=
  match GPSTime.fromTimePoint (t.timePoint - 1) with
  | .error e => .error e
  | .ok v => .ok (t, v)

/-- Compound assignment `GPSTime::operator+=` and the binary
`operator+(GPSTime, TimeDelta)` built on it: adds the delta's tick count
to the stored time point with no range check. -/
def GPSTime.addDelta (t : GPSTime) (dt : TimeDelta) : GPSTime := ⟨t.timePoint + dt.count⟩

/-- Compound assignment `GPSTime::operator-=` and the binary
`operator-(GPSTime, TimeDelta)`: subtracts with no range check. -/
def GPSTime.subDelta (t : GPSTime) (dt : TimeDelta) : GPSTime := ⟨t.timePoint - dt.count⟩

/-- Broken-down component tuple of a GPSTime, read through the eight
accessors (the `toComponents` view the spec compares lexicographically). -/
def GPSTime.components (t : GPSTime) : Int × Int × Int × Int × Int × Int × Int × Int :=
  (t.year, t.month, t.day, t.hour, t.minute, t.second, t.microsecond, t.picosecond)

/-- Lexicographic strict order on broken-down component tuples: the
comparison the v2 `DateTime` order operators perform on the component
array (`std::array` `operator<`), and the order the spec's monotonicity
property refers to. -/
def lexLt8 (a b : Int × Int × Int × Int × Int × Int × Int × Int) : Prop :=
  a.1 < b.1 ∨ (a.1 = b.1 ∧ (a.2.1 < b.2.1 ∨ (a.2.1 = b.2.1 ∧ (a.2.2.1 < b.2.2.1 ∨
    (a.2.2.1 = b.2.2.1 ∧ (a.2.2.2.1 < b.2.2.2.1 ∨ (a.2.2.2.1 = b.2.2.2.1 ∧
    (a.2.2.2.2.1 < b.2.2.2.2.1 ∨ (a.2.2.2.2.1 = b.2.2.2.2.1 ∧
    (a.2.2.2.2.2.1 < b.2.2.2.2.2.1 ∨ (a.2.2.2.2.2.1 = b.2.2.2.2.2.1 ∧
    (a.2.2.2.2.2.2.1 < b.2.2.2.2.2.2.1 ∨ (a.2.2.2.2.2.2.1 = b.2.2.2.2.2.2.1 ∧
    a.2.2.2.2.2.2.2 < b.2.2.2.2.2.2.2)))))))))))))

/-- Shape predicate transcribing the spec grammar of claim C5 word for
word: `DATE ('T' | ' ') TIME ['.' SUBSECONDS]` with a 4-digit year,
2-digit month, day, hour, minute and second, and 1 to 12 subsecond
digits.  This is the spec-side definition the parser is compared with,
not a transcription of the code. -/
def matchesDatetimePattern (l : List Char) : Bool :=
  match l with
  | a :: b :: c :: d :: '-' :: e :: f :: '-' :: g :: h :: sep :: i :: j :: ':' :: k :: m :: ':' :: n :: o :: rest =>
    (sep == 'T' || sep == ' ') &&
    ([a,b,c,d,e,f,g,h,i,j,k,m,n,o].all Char.isDigit) &&
    (match rest with
     | [] => true
     | '.'::ds => decide (1 ≤ ds.length) && decide (ds.length ≤ 12) && ds.all Char.isDigit
     | _ => false)
  | _ => false

end Caesar
-- ===== end of definitions (more definitions are inserted above this line) =====

namespace Caesar

theorem tmod_neg_left (a b : Int) : (-a).tmod b = -(a.tmod b) := by
  have h1 := Int.tmod_add_tdiv a b
  have h2 := Int.tmod_add_tdiv (-a) b
  rw [Int.neg_tdiv, mul_neg] at h2
  omega

theorem tmod_bounds (d p : Int) (hp : p ≠ 0) :
    -|p| < d.tmod p ∧ d.tmod p < |p| ∧
    (0 ≤ d → 0 ≤ d.tmod p ∧ d.tmod p ≤ d) ∧
    (d ≤ 0 → d.tmod p ≤ 0 ∧ d ≤ d.tmod p) := by
  have key : ∀ x q : Int, 0 ≤ x → 0 < q → 0 ≤ x.tmod q ∧ x.tmod q < q ∧ x.tmod q ≤ x := by
    intro x q hx hq
    rw [Int.tmod_eq_emod hx hq.le]
    refine ⟨Int.emod_nonneg x (by omega), Int.emod_lt_of_pos x hq, ?_⟩
    have h1 : x % q = x - q * (x / q) := (Int.emod_def x q)
    have h2 : 0 ≤ x / q := Int.ediv_nonneg hx hq.le
    nlinarith
  have habs : d.tmod p = d.tmod |p| := by
    rcases abs_cases p with ⟨h, _⟩ | ⟨h, _⟩
    · rw [h]
    · rw [h, Int.tmod_neg]
  have hap : 0 < |p| := abs_pos.mpr hp
  rcases le_or_lt 0 d with hd | hd
  · have := key d |p| hd hap
    rw [habs]
    refine ⟨by omega, by omega, fun _ => by omega, fun h0 => by omega⟩
  · have hdn : 0 ≤ -d := by omega
    have := key (-d) |p| hdn hap
    have hneg : d.tmod |p| = -((-d).tmod |p|) := by
      rw [tmod_neg_left, neg_neg]
    rw [habs]
    omega

theorem tmod_dvd_sub (d p : Int) : p ∣ d - d.tmod p := by
  have h := Int.tmod_add_tdiv d p
  exact ⟨d.tdiv p, by omega⟩

theorem count_abs (p : TimeDelta) : (TimeDelta.abs p).count = |p.count| := by
  unfold TimeDelta.abs
  rcases abs_cases p.count with ⟨h, h2⟩ | ⟨h, h2⟩
  · rw [if_pos]
    · omega
    · exact h2
  · rw [if_neg]
    · show (-p).count = _
      show -p.count = _
      omega
    · show ¬ (TimeDelta.zero.count ≤ p.count)
      show ¬ ((0 : Int) ≤ p.count)
      omega

theorem floor_spec (d p : TimeDelta) (hp : p.count ≠ 0) :
    p.count ∣ (TimeDelta.floor d p).count ∧
    (TimeDelta.floor d p).count ≤ d.count ∧
    d.count < (TimeDelta.floor d p).count + |p.count| := by
  have hb := tmod_bounds d.count p.count hp
  have hdvd := tmod_dvd_sub d.count p.count
  have habsdvd : p.count ∣ |p.count| := (dvd_abs _ _).mpr dvd_rfl
  unfold TimeDelta.floor
  simp only
  by_cases h : TimeDelta.trunc d p ≤ d
  · rw [if_pos h]
    have h2 : (TimeDelta.trunc d p).count = d.count - d.count.tmod p.count := rfl
    have h3 : (TimeDelta.trunc d p).count ≤ d.count := h
    refine ⟨by rw [h2]; exact hdvd, by omega, by omega⟩
  · rw [if_neg h]
    have h2 : (TimeDelta.trunc d p).count = d.count - d.count.tmod p.count := rfl
    have h3 : ¬ ((TimeDelta.trunc d p).count ≤ d.count) := h
    have h4 : (TimeDelta.trunc d p - TimeDelta.abs p).count
        = d.count - d.count.tmod p.count - |p.count| := by
      show (TimeDelta.trunc d p).count - (TimeDelta.abs p).count = _
      rw [h2, count_abs]
    rw [h4]
    refine ⟨dvd_sub hdvd habsdvd, by omega, by omega⟩

theorem ceil_spec (d p : TimeDelta) (hp : p.count ≠ 0) :
    p.count ∣ (TimeDelta.ceil d p).count ∧
    d.count ≤ (TimeDelta.ceil d p).count ∧
    (TimeDelta.ceil d p).count - |p.count| < d.count := by
  have hb := tmod_bounds d.count p.count hp
  have hdvd := tmod_dvd_sub d.count p.count
  have habsdvd : p.count ∣ |p.count| := (dvd_abs _ _).mpr dvd_rfl
  unfold TimeDelta.ceil
  simp only
  by_cases h : d ≤ TimeDelta.trunc d p
  · rw [if_pos h]
    have h2 : (TimeDelta.trunc d p).count = d.count - d.count.tmod p.count := rfl
    have h3 : d.count ≤ (TimeDelta.trunc d p).count := h
    refine ⟨by rw [h2]; exact hdvd, by omega, by omega⟩
  · rw [if_neg h]
    have h2 : (TimeDelta.trunc d p).count = d.count - d.count.tmod p.count := rfl
    have h3 : ¬ (d.count ≤ (TimeDelta.trunc d p).count) := h
    have h4 : (TimeDelta.trunc d p + TimeDelta.abs p).count
        = d.count - d.count.tmod p.count + |p.count| := by
      show (TimeDelta.trunc d p).count + (TimeDelta.abs p).count = _
      rw [h2, count_abs]
    rw [h4]
    refine ⟨dvd_add hdvd habsdvd, by omega, by omega⟩

end Caesar

namespace Caesar

theorem multiple_separation (L A pc M : Int) (hA : A = |pc|)
    (hdvdL : pc ∣ L) (hdvdM : pc ∣ M) : M ≤ L ∨ L + A ≤ M := by
  by_contra hcon
  push_neg at hcon
  obtain ⟨h1, h2⟩ := hcon
  have hdvd : pc ∣ M - L := dvd_sub hdvdM hdvdL
  have habs : |pc| ∣ M - L := (abs_dvd _ _).mpr hdvd
  have hpos : 0 < M - L := by omega
  have hle : |pc| ≤ M - L := Int.le_of_dvd hpos habs
  omega

theorem round_spec (d p : TimeDelta) (hp : p.count ≠ 0) :
    (∃ k : Int, (TimeDelta.round d p).count = k * p.count) ∧
    (∀ k : Int, |d.count - (TimeDelta.round d p).count| ≤ |d.count - k * p.count|) ∧
    (2 * (d.count - (TimeDelta.floor d p).count) = |p.count| →
      ∃ c : Int, (TimeDelta.round d p).count = 2 * c * p.count) := by
  obtain ⟨hdvd, hle, hlt⟩ := floor_spec d p hp
  obtain ⟨q, hq⟩ := hdvd
  have hA : 0 < |p.count| := abs_pos.mpr hp
  have hround : TimeDelta.round d p =
      (if d - TimeDelta.floor d p < TimeDelta.floor d p + TimeDelta.abs p - d
       then TimeDelta.floor d p
       else if TimeDelta.floor d p + TimeDelta.abs p - d < d - TimeDelta.floor d p
       then TimeDelta.floor d p + TimeDelta.abs p
       else if ((TimeDelta.floor d p).count.tdiv p.count) % 2 = 1
       then TimeDelta.floor d p + TimeDelta.abs p
       else TimeDelta.floor d p) := rfl
  have hcount_up : (TimeDelta.floor d p + TimeDelta.abs p).count
      = (TimeDelta.floor d p).count + |p.count| := by
    show (TimeDelta.floor d p).count + (TimeDelta.abs p).count = _
    rw [count_abs]
  have hq2 : (TimeDelta.floor d p).count.tdiv p.count = q := by
    rw [hq, mul_comm, Int.mul_tdiv_cancel _ hp]
  have hsep : ∀ k : Int, k * p.count ≤ (TimeDelta.floor d p).count ∨
      (TimeDelta.floor d p).count + |p.count| ≤ k * p.count := by
    intro k
    exact multiple_separation _ _ p.count _ rfl ⟨q, hq⟩ ⟨k, mul_comm k p.count⟩
  have hcond1 : (d - TimeDelta.floor d p < TimeDelta.floor d p + TimeDelta.abs p - d)
      ↔ (d.count - (TimeDelta.floor d p).count
          < (TimeDelta.floor d p).count + |p.count| - d.count) := by
    show ((d - TimeDelta.floor d p).count < _) ↔ _
    have e1 : (d - TimeDelta.floor d p).count = d.count - (TimeDelta.floor d p).count := rfl
    have e2 : (TimeDelta.floor d p + TimeDelta.abs p - d).count
        = (TimeDelta.floor d p).count + |p.count| - d.count := by
      show (TimeDelta.floor d p + TimeDelta.abs p).count - d.count = _
      rw [hcount_up]
    rw [e1, e2]
  have hcond2 : (TimeDelta.floor d p + TimeDelta.abs p - d < d - TimeDelta.floor d p)
      ↔ ((TimeDelta.floor d p).count + |p.count| - d.count
          < d.count - (TimeDelta.floor d p).count) := by
    show ((TimeDelta.floor d p + TimeDelta.abs p - d).count < _) ↔ _
    have e1 : (d - TimeDelta.floor d p).count = d.count - (TimeDelta.floor d p).count := rfl
    have e2 : (TimeDelta.floor d p + TimeDelta.abs p - d).count
        = (TimeDelta.floor d p).count + |p.count| - d.count := by
      show (TimeDelta.floor d p + TimeDelta.abs p).count - d.count = _
      rw [hcount_up]
    rw [e1, e2]
  rw [hround]
  split_ifs with h1 h2 h3
  · -- round = lower (strictly nearer below)
    replace h1 := hcond1.mp h1
    refine ⟨⟨q, by rw [hq, mul_comm]⟩, ?_, ?_⟩
    · intro k
      rcases hsep k with hk | hk
      · have e1 : |d.count - (TimeDelta.floor d p).count|
            = d.count - (TimeDelta.floor d p).count := abs_of_nonneg (by omega)
        have e2 : |d.count - k * p.count| = d.count - k * p.count := abs_of_nonneg (by omega)
        omega
      · have e1 : |d.count - (TimeDelta.floor d p).count|
            = d.count - (TimeDelta.floor d p).count := abs_of_nonneg (by omega)
        have e2 : |d.count - k * p.count| = -(d.count - k * p.count) := abs_of_nonpos (by omega)
        omega
    · intro htie
      omega
  · -- round = upper (strictly nearer above)
    replace h2 := hcond2.mp h2
    rw [hcount_up]
    rcases abs_cases p.count with ⟨he, _⟩ | ⟨he, _⟩
    all_goals refine ⟨?_, ?_, ?_⟩
    · exact ⟨q + 1, by rw [hq]; ring_nf; omega⟩
    · intro k
      rcases hsep k with hk | hk
      · have e1 : |d.count - ((TimeDelta.floor d p).count + |p.count|)|
            = -(d.count - ((TimeDelta.floor d p).count + |p.count|)) := abs_of_nonpos (by omega)
        have e2 : |d.count - k * p.count| = d.count - k * p.count := abs_of_nonneg (by omega)
        omega
      · have e1 : |d.count - ((TimeDelta.floor d p).count + |p.count|)|
            = -(d.count - ((TimeDelta.floor d p).count + |p.count|)) := abs_of_nonpos (by omega)
        have e2 : |d.count - k * p.count| = -(d.count - k * p.count) := abs_of_nonpos (by omega)
        omega
    · intro htie
      omega
    · exact ⟨q - 1, by rw [hq]; ring_nf; omega⟩
    · intro k
      rcases hsep k with hk | hk
      · have e1 : |d.count - ((TimeDelta.floor d p).count + |p.count|)|
            = -(d.count - ((TimeDelta.floor d p).count + |p.count|)) := abs_of_nonpos (by omega)
        have e2 : |d.count - k * p.count| = d.count - k * p.count := abs_of_nonneg (by omega)
        omega
      · have e1 : |d.count - ((TimeDelta.floor d p).count + |p.count|)|
            = -(d.count - ((TimeDelta.floor d p).count + |p.count|)) := abs_of_nonpos (by omega)
        have e2 : |d.count - k * p.count| = -(d.count - k * p.count) := abs_of_nonpos (by omega)
        omega
    · intro htie
      omega
  · -- exact tie, odd lower index: round = upper
    rw [hq2] at h3
    have h1i : (TimeDelta.floor d p).count + |p.count| - d.count
        ≤ d.count - (TimeDelta.floor d p).count := by
      by_contra hc
      push_neg at hc
      exact h1 (hcond1.mpr hc)
    have h2i : d.count - (TimeDelta.floor d p).count
        ≤ (TimeDelta.floor d p).count + |p.count| - d.count := by
      by_contra hc
      push_neg at hc
      exact h2 (hcond2.mpr hc)
    obtain ⟨t, ht⟩ : ∃ t, q = 2 * t + 1 := ⟨q / 2, by omega⟩
    rw [hcount_up]
    rcases abs_cases p.count with ⟨he, _⟩ | ⟨he, _⟩
    all_goals refine ⟨?_, ?_, ?_⟩
    · exact ⟨q + 1, by rw [hq]; ring_nf; omega⟩
    · intro k
      rcases hsep k with hk | hk
      · have e1 : |d.count - ((TimeDelta.floor d p).count + |p.count|)|
            = -(d.count - ((TimeDelta.floor d p).count + |p.count|)) := abs_of_nonpos (by omega)
        have e2 : |d.count - k * p.count| = d.count - k * p.count := abs_of_nonneg (by omega)
        omega
      · have e1 : |d.count - ((TimeDelta.floor d p).count + |p.count|)|
            = -(d.count - ((TimeDelta.floor d p).count + |p.count|)) := abs_of_nonpos (by omega)
        have e2 : |d.count - k * p.count| = -(d.count - k * p.count) := abs_of_nonpos (by omega)
        omega
    · intro htie
      exact ⟨t + 1, by rw [hq, ht]; ring_nf; omega⟩
    · exact ⟨q - 1, by rw [hq]; ring_nf; omega⟩
    · intro k
      rcases hsep k with hk | hk
      · have e1 : |d.count - ((TimeDelta.floor d p).count + |p.count|)|
            = -(d.count - ((TimeDelta.floor d p).count + |p.count|)) := abs_of_nonpos (by omega)
        have e2 : |d.count - k * p.count| = d.count - k * p.count := abs_of_nonneg (by omega)
        omega
      · have e1 : |d.count - ((TimeDelta.floor d p).count + |p.count|)|
            = -(d.count - ((TimeDelta.floor d p).count + |p.count|)) := abs_of_nonpos (by omega)
        have e2 : |d.count - k * p.count| = -(d.count - k * p.count) := abs_of_nonpos (by omega)
        omega
    · intro htie
      exact ⟨t, by rw [hq, ht]; ring_nf; omega⟩
  · -- exact tie, even lower index: round = lower
    rw [hq2] at h3
    have h1i : (TimeDelta.floor d p).count + |p.count| - d.count
        ≤ d.count - (TimeDelta.floor d p).count := by
      by_contra hc
      push_neg at hc
      exact h1 (hcond1.mpr hc)
    have h2i : d.count - (TimeDelta.floor d p).count
        ≤ (TimeDelta.floor d p).count + |p.count| - d.count := by
      by_contra hc
      push_neg at hc
      exact h2 (hcond2.mpr hc)
    obtain ⟨t, ht⟩ : ∃ t, q = 2 * t := ⟨q / 2, by omega⟩
    refine ⟨⟨q, by rw [hq, mul_comm]⟩, ?_, ?_⟩
    · intro k
      rcases hsep k with hk | hk
      · have e1 : |d.count - (TimeDelta.floor d p).count|
            = d.count - (TimeDelta.floor d p).count := abs_of_nonneg (by omega)
        have e2 : |d.count - k * p.count| = d.count - k * p.count := abs_of_nonneg (by omega)
        omega
      · have e1 : |d.count - (TimeDelta.floor d p).count|
            = d.count - (TimeDelta.floor d p).count := abs_of_nonneg (by omega)
        have e2 : |d.count - k * p.count| = -(d.count - k * p.count) := abs_of_nonpos (by omega)
        omega
    · intro htie
      exact ⟨t, by rw [hq, ht]; ring_nf⟩

end Caesar

namespace Caesar

theorem trunc_sign (d p : TimeDelta) (hp : p.count ≠ 0) :
    TimeDelta.trunc d p = TimeDelta.zero ∨
    (TimeDelta.zero < TimeDelta.trunc d p ∧ TimeDelta.zero < d) ∨
    (TimeDelta.trunc d p < TimeDelta.zero ∧ d < TimeDelta.zero) := by
  have hb := tmod_bounds d.count p.count hp
  have e1 : (TimeDelta.trunc d p).count = d.count - d.count.tmod p.count := rfl
  have lt1 : (TimeDelta.zero < TimeDelta.trunc d p) ↔ 0 < d.count - d.count.tmod p.count := by
    show (TimeDelta.zero.count < (TimeDelta.trunc d p).count) ↔ _
    rw [e1]
    rfl
  have lt2 : (TimeDelta.trunc d p < TimeDelta.zero) ↔ d.count - d.count.tmod p.count < 0 := by
    show ((TimeDelta.trunc d p).count < TimeDelta.zero.count) ↔ _
    rw [e1]
    rfl
  have lt3 : (TimeDelta.zero < d) ↔ 0 < d.count := Iff.rfl
  have lt4 : (d < TimeDelta.zero) ↔ d.count < 0 := Iff.rfl
  have eq0 : (TimeDelta.trunc d p = TimeDelta.zero) ↔ d.count - d.count.tmod p.count = 0 := by
    constructor
    · intro h
      have := congrArg TimeDelta.count h
      rw [e1] at this
      exact this
    · intro h
      show TimeDelta.mk d.count - TimeDelta.mk (d.count.tmod p.count) = TimeDelta.zero
      show TimeDelta.mk (d.count - d.count.tmod p.count) = TimeDelta.zero
      rw [h]
      rfl
  rw [eq0, lt1, lt2, lt3, lt4]
  omega

end Caesar

namespace Caesar

/-- C2: for every duration d and nonzero period p, `floor(d,p) <= d <= ceil(d,p)`;
`trunc(d,p)` is zero or has the same sign as d; `round(d,p)` is an integer
multiple of p nearest to d, and an exact halfway case resolves to an even
multiple of p; concretely, `floor(-2s-500ms, 1s) = -3s`,
`ceil(-2s-500ms, 1s) = -2s`, and `round(2s+500ms, 1s) = 2s`. -/
theorem C2_rounding_laws :
    (∀ d p : TimeDelta, p ≠ TimeDelta.zero →
      (TimeDelta.floor d p ≤ d ∧ d ≤ TimeDelta.ceil d p) ∧
      (TimeDelta.trunc d p = TimeDelta.zero ∨
        (TimeDelta.zero < TimeDelta.trunc d p ∧ TimeDelta.zero < d) ∨
        (TimeDelta.trunc d p < TimeDelta.zero ∧ d < TimeDelta.zero)) ∧
      (∃ k : Int, (TimeDelta.round d p).count = k * p.count) ∧
      (∀ k : Int, |d.count - (TimeDelta.round d p).count| ≤ |d.count - k * p.count|) ∧
      (2 * (d.count - (TimeDelta.floor d p).count) = |p.count| →
        ∃ c : Int, (TimeDelta.round d p).count = 2 * c * p.count)) ∧
    TimeDelta.floor (-TimeDelta.seconds 2 - TimeDelta.milliseconds 500)
      (TimeDelta.seconds 1) = TimeDelta.seconds (-3) ∧
    TimeDelta.ceil (-TimeDelta.seconds 2 - TimeDelta.milliseconds 500)
      (TimeDelta.seconds 1) = TimeDelta.seconds (-2) ∧
    TimeDelta.round (TimeDelta.seconds 2 + TimeDelta.milliseconds 500)
      (TimeDelta.seconds 1) = TimeDelta.seconds 2 := by
  refine ⟨?_, by decide, by decide, by decide⟩
  intro d p hp
  have hpc : p.count ≠ 0 := by
    intro h
    apply hp
    show TimeDelta.mk p.count = TimeDelta.zero
    rw [h]
    rfl
  obtain ⟨_, hfle, _⟩ := floor_spec d p hpc
  obtain ⟨_, hcle, _⟩ := ceil_spec d p hpc
  obtain ⟨hmul, hnear, htie⟩ := round_spec d p hpc
  exact ⟨⟨hfle, hcle⟩, trunc_sign d p hpc, hmul, hnear, htie⟩

/-- Witness for C2 at concrete inputs. -/
theorem C2_rounding_laws_witness :
    TimeDelta.floor (TimeDelta.seconds 5) (TimeDelta.seconds 3) ≤ TimeDelta.seconds 5 ∧
    TimeDelta.seconds 5 ≤ TimeDelta.ceil (TimeDelta.seconds 5) (TimeDelta.seconds 3) :=
  (C2_rounding_laws.1 (TimeDelta.seconds 5) (TimeDelta.seconds 3) (by decide)).1

end Caesar

namespace Caesar

set_option maxRecDepth 4000 in
theorem L1 : ∀ k < 400, 365 * k ≤ gDoe (yearStartDoe k) := by decide

set_option maxRecDepth 4000 in
theorem L2 : ∀ k < 400, gDoe (yearStartDoe k + (eraYearLen k - 1)) ≤ 365 * k + 364 := by decide

set_option maxRecDepth 4000 in
theorem L3 : ∀ k < 400, 365 ≤ eraYearLen k ∧ eraYearLen k ≤ 366 ∧
    yearStartDoe k + eraYearLen k ≤ 146097 := by decide

set_option maxRecDepth 4000 in
theorem L4 : ∀ k < 400, (eraYearLen k = 366 ↔
    ((k + 1) % 4 = 0 ∧ ((k + 1) % 100 ≠ 0 ∨ k = 399))) := by decide

theorem L5a : ∀ mp < 12, ∀ d0 < 31, d0 < shiftedMonthLen mp →
    (5 * (monthStartDoy mp + d0) + 2) / 153 = mp := by decide

theorem L5b : ∀ mp < 11, monthStartDoy mp + shiftedMonthLen mp ≤ 365 := by decide

theorem gMono : ∀ a b : Nat, a ≤ b → b ≤ 146097 → gDoe a ≤ gDoe b := by
  intro a b h1 h2
  unfold gDoe
  omega



theorem keyYoe : ∀ k < 400, ∀ doy, doy < eraYearLen k →
    gDoe (yearStartDoe k + doy) / 365 = k := by
  intro k hk doy hdoy
  have h1 := L1 k hk
  have h2 := L2 k hk
  have h3 := L3 k hk
  have hg1 : gDoe (yearStartDoe k) ≤ gDoe (yearStartDoe k + doy) :=
    gMono _ _ (by omega) (by omega)
  have hg2 : gDoe (yearStartDoe k + doy) ≤ gDoe (yearStartDoe k + (eraYearLen k - 1)) :=
    gMono _ _ (by omega) (by omega)
  omega

theorem yearPartition : ∀ doe ≤ 146096, ∃ k, k < 400 ∧
    yearStartDoe k ≤ doe ∧ doe < yearStartDoe k + eraYearLen k := by
  intro doe
  induction doe with
  | zero => intro _; exact ⟨0, by decide⟩
  | succ n ih =>
    intro hn
    obtain ⟨k, hk, hlo, hhi⟩ := ih (by omega)
    by_cases hcase : n + 1 < yearStartDoe k + eraYearLen k
    · exact ⟨k, hk, by omega, hcase⟩
    · have hkne : k ≠ 399 := by
        intro he
        subst he
        have := L3 399 (by omega)
        have hlen : yearStartDoe 399 + eraYearLen 399 = 146097 := by decide
        omega
      have hk399 : k + 1 < 400 := by omega
      have hnext : yearStartDoe (k + 1) = yearStartDoe k + eraYearLen k := by
        unfold eraYearLen
        rw [if_neg hkne]
        have hmono : yearStartDoe k ≤ yearStartDoe (k + 1) := by
          unfold yearStartDoe
          omega
        omega
      have h3 := L3 (k + 1) hk399
      exact ⟨k + 1, hk399, by omega, by omega⟩

set_option maxRecDepth 4000 in
theorem monthReverse : ∀ doy < 366,
    (5 * doy + 2) / 153 < 12 ∧
    monthStartDoy ((5 * doy + 2) / 153) ≤ doy ∧
    doy - monthStartDoy ((5 * doy + 2) / 153) < shiftedMonthLen ((5 * doy + 2) / 153) ∧
    (doy = 365 → (5 * doy + 2) / 153 = 11 ∧ doy - monthStartDoy ((5 * doy + 2) / 153) = 28) := by
  decide

theorem rt1 (ys mp d0 : Nat) (hmp : mp < 12)
    (hd0 : d0 < shiftedMonthLen mp)
    (hfeb : mp = 11 ∧ d0 = 28 → eraYearLen (ys % 400) = 366) :
    civilFromDaysN (daysFromCivilN ys mp d0) = (ys, mp, d0) := by
  have hyoe : ys % 400 < 400 := Nat.mod_lt _ (by omega)
  have h3 := L3 (ys % 400) hyoe
  have hdoy : monthStartDoy mp + d0 < eraYearLen (ys % 400) := by
    by_cases hfebc : mp = 11 ∧ d0 = 28
    · obtain ⟨hm11, hd28⟩ := hfebc
      subst hm11
      have hL := hfeb ⟨rfl, hd28⟩
      have hms : monthStartDoy 11 = 337 := by decide
      omega
    · have hb : monthStartDoy mp + d0 ≤ 364 := by
        rcases Nat.lt_or_ge mp 11 with h | h
        · have := L5b mp h
          omega
        · have hmp11 : mp = 11 := by omega
          subst hmp11
          have : monthStartDoy 11 = 337 := by decide
          have : d0 ≠ 28 := fun hc => hfebc ⟨rfl, hc⟩
          have : shiftedMonthLen 11 = 29 := by decide
          omega
      omega
  have hdoe : yearStartDoe (ys % 400) + (monthStartDoy mp + d0) ≤ 146096 := by omega
  unfold daysFromCivilN civilFromDaysN
  simp only
  have hzp : ((ys / 400) * 146097 + yearStartDoe (ys % 400) + monthStartDoy mp + d0)
      = (ys / 400) * 146097 + (yearStartDoe (ys % 400) + (monthStartDoy mp + d0)) := by omega
  rw [hzp]
  have hdiv : ((ys / 400) * 146097 + (yearStartDoe (ys % 400) + (monthStartDoy mp + d0))) / 146097
      = ys / 400 := by omega
  have hmod : ((ys / 400) * 146097 + (yearStartDoe (ys % 400) + (monthStartDoy mp + d0))) % 146097
      = yearStartDoe (ys % 400) + (monthStartDoy mp + d0) := by omega
  rw [hdiv, hmod]
  have hyoe_rec := keyYoe (ys % 400) hyoe (monthStartDoy mp + d0) hdoy
  rw [hyoe_rec]
  have hdoy_rec : yearStartDoe (ys % 400) + (monthStartDoy mp + d0) - yearStartDoe (ys % 400)
      = monthStartDoy mp + d0 := by omega
  rw [hdoy_rec]
  have hmp_rec := L5a mp hmp d0 (by
    have : shiftedMonthLen mp ≤ 31 := by
      rcases hmp with _
      interval_cases mp <;> decide
    omega) hd0
  rw [hmp_rec]
  have : monthStartDoy mp + d0 - monthStartDoy mp = d0 := by omega
  rw [this]
  have : ys / 400 * 400 + ys % 400 = ys := by omega
  rw [this]

theorem rt2 (zp : Nat) (hzp : zp ≤ 3652364) (hzp306 : 306 ≤ zp) :
    daysFromCivilN (civilFromDaysN zp).1 (civilFromDaysN zp).2.1 (civilFromDaysN zp).2.2 = zp ∧
    (civilFromDaysN zp).1 ≤ 9999 ∧
    (civilFromDaysN zp).2.1 < 12 ∧
    (civilFromDaysN zp).2.2 < shiftedMonthLen (civilFromDaysN zp).2.1 ∧
    ((civilFromDaysN zp).2.1 = 11 ∧ (civilFromDaysN zp).2.2 = 28 →
      eraYearLen ((civilFromDaysN zp).1 % 400) = 366) ∧
    (10 ≤ (civilFromDaysN zp).2.1 ∨ 1 ≤ (civilFromDaysN zp).1) ∧
    ((civilFromDaysN zp).2.1 < 10 ∨ (civilFromDaysN zp).1 ≤ 9998) := by
  have hdoe_lt : zp % 146097 ≤ 146096 := by omega
  obtain ⟨k, hk, hlo, hhi⟩ := yearPartition (zp % 146097) hdoe_lt
  have h3 := L3 k hk
  have hyoe : gDoe (zp % 146097) / 365 = k := by
    have hkey := keyYoe k hk (zp % 146097 - yearStartDoe k) (by omega)
    have he : yearStartDoe k + (zp % 146097 - yearStartDoe k) = zp % 146097 := by omega
    rw [he] at hkey
    exact hkey
  have hera : zp / 146097 ≤ 24 := by omega
  have hdoy366 : zp % 146097 - yearStartDoe k < 366 := by omega
  have hmr := monthReverse (zp % 146097 - yearStartDoe k) hdoy366
  have hc : civilFromDaysN zp =
      ((zp / 146097) * 400 + k,
       (5 * (zp % 146097 - yearStartDoe k) + 2) / 153,
       (zp % 146097 - yearStartDoe k) -
         monthStartDoy ((5 * (zp % 146097 - yearStartDoe k) + 2) / 153)) := by
    unfold civilFromDaysN
    simp only
    rw [hyoe]
  rw [hc]
  simp only
  obtain ⟨hmp12, hmslo, hmlen, hm365⟩ := hmr
  refine ⟨?_, by omega, hmp12, hmlen, ?_, ?_, ?_⟩
  · unfold daysFromCivilN
    have e1 : ((zp / 146097) * 400 + k) / 400 = zp / 146097 := by omega
    have e2 : ((zp / 146097) * 400 + k) % 400 = k := by omega
    rw [e1, e2]
    omega
  · intro ⟨hm11, hd28⟩
    have e2 : ((zp / 146097) * 400 + k) % 400 = k := by omega
    rw [e2]
    rw [hm11] at hmslo hd28
    have hms : monthStartDoy 11 = 337 := by decide
    have hdoy365 : zp % 146097 - yearStartDoe k = 365 := by omega
    omega
  · rcases Nat.eq_zero_or_pos ((zp / 146097) * 400 + k) with hz0 | hpos
    · left
      have hk0 : k = 0 := by omega
      subst hk0
      have h00 : yearStartDoe 0 = 0 := by decide
      have hera0 : zp / 146097 = 0 := by omega
      have hdoe : zp % 146097 = zp := by omega
      omega
    · right
      omega
  · by_cases htop : (zp / 146097) * 400 + k = 9999
    · left
      have hera24 : zp / 146097 = 24 := by omega
      have hk399 : k = 399 := by omega
      subst hk399
      have h399 : yearStartDoe 399 = 145731 := by decide
      have hdoe : zp % 146097 = zp - 24 * 146097 := by omega
      omega
    · right
      omega

theorem cfd_of_civilN (zp : Nat) :
    civil_from_days ((zp : Int) - 719468) =
      (((civilFromDaysN zp).1 : Int) +
         (if 10 ≤ (civilFromDaysN zp).2.1 then (1 : Int) else 0),
       (if (civilFromDaysN zp).2.1 < 10 then ((civilFromDaysN zp).2.1 : Int) + 3
        else ((civilFromDaysN zp).2.1 : Int) - 9),
       ((civilFromDaysN zp).2.2 : Int) + 1) := by
  have hdoe_lt : zp % 146097 ≤ 146096 := by omega
  obtain ⟨k, hk, hlo, hhi⟩ := yearPartition (zp % 146097) hdoe_lt
  have h3 := L3 k hk
  have hyoe : gDoe (zp % 146097) / 365 = k := by
    have hkey := keyYoe k hk (zp % 146097 - yearStartDoe k) (by omega)
    have he : yearStartDoe k + (zp % 146097 - yearStartDoe k) = zp % 146097 := by omega
    rw [he] at hkey
    exact hkey
  have hdoy366 : zp % 146097 - yearStartDoe k < 366 := by omega
  obtain ⟨hmp12, hmslo, hmlen, hm365⟩ := monthReverse (zp % 146097 - yearStartDoe k) hdoy366
  have hcN : civilFromDaysN zp =
      ((zp / 146097) * 400 + k,
       (5 * (zp % 146097 - yearStartDoe k) + 2) / 153,
       (zp % 146097 - yearStartDoe k) -
         monthStartDoy ((5 * (zp % 146097 - yearStartDoe k) + 2) / 153)) := by
    unfold civilFromDaysN
    simp only
    rw [hyoe]
  rw [hcN]
  simp only [civil_from_days]
  have hz : (↑zp : Int) - 719468 + 719468 = ↑zp := by ring
  rw [hz, if_pos (show (0:Int) ≤ ↑zp by positivity)]
  rw [Int.tdiv_eq_ediv (show (0:Int) ≤ ↑zp by positivity) (by norm_num)]
  have heraE : (↑zp : Int) / 146097 = ↑(zp / 146097) := by omega
  rw [heraE]
  have hdoeE : (↑zp : Int) - ↑(zp / 146097) * 146097 = ↑(zp % 146097) := by omega
  rw [hdoeE]
  rw [Int.tdiv_eq_ediv (show (0:Int) ≤ (↑(zp % 146097) : Int) by positivity) (by norm_num),
      Int.tdiv_eq_ediv (show (0:Int) ≤ (↑(zp % 146097) : Int) by positivity) (by norm_num),
      Int.tdiv_eq_ediv (show (0:Int) ≤ (↑(zp % 146097) : Int) by positivity) (by norm_num)]
  rw [Int.tdiv_eq_ediv (show (0:Int) ≤ (↑(zp % 146097) : Int) - (↑(zp % 146097) : Int) / 1460
        + (↑(zp % 146097) : Int) / 36524 - (↑(zp % 146097) : Int) / 146096 by omega)
      (by norm_num)]
  have hyoeE : ((↑(zp % 146097) : Int) - (↑(zp % 146097) : Int) / 1460
      + (↑(zp % 146097) : Int) / 36524 - (↑(zp % 146097) : Int) / 146096) / 365 = (↑k : Int) := by
    have hg : ((gDoe (zp % 146097) : Nat) : Int)
        = (↑(zp % 146097) : Int) - (↑(zp % 146097) : Int) / 1460
          + (↑(zp % 146097) : Int) / 36524 - (↑(zp % 146097) : Int) / 146096 := by
      unfold gDoe
      omega
    rw [← hg]
    omega
  rw [hyoeE]
  rw [Int.tdiv_eq_ediv (show (0:Int) ≤ (↑k : Int) by positivity) (by norm_num),
      Int.tdiv_eq_ediv (show (0:Int) ≤ (↑k : Int) by positivity) (by norm_num)]
  have hdoyE : (↑(zp % 146097) : Int) - (365 * (↑k : Int) + (↑k : Int) / 4 - (↑k : Int) / 100)
      = ↑(zp % 146097 - yearStartDoe k) := by
    unfold yearStartDoe at hlo ⊢
    omega
  rw [hdoyE]
  rw [Int.tdiv_eq_ediv
      (show (0:Int) ≤ 5 * (↑(zp % 146097 - yearStartDoe k) : Int) + 2 by positivity)
      (by norm_num)]
  have hmpE : (5 * (↑(zp % 146097 - yearStartDoe k) : Int) + 2) / 153
      = ↑((5 * (zp % 146097 - yearStartDoe k) + 2) / 153) := by omega
  rw [hmpE]
  rw [Int.tdiv_eq_ediv
      (show (0:Int) ≤ 153 * (↑((5 * (zp % 146097 - yearStartDoe k) + 2) / 153) : Int) + 2 by
        positivity)
      (by norm_num)]
  by_cases hsplit : (5 * (zp % 146097 - yearStartDoe k) + 2) / 153 < 10
  · rw [if_pos (show ((↑((5 * (zp % 146097 - yearStartDoe k) + 2) / 153) : Int) < 10) by
        exact_mod_cast hsplit)]
    rw [if_neg (show ¬ ((↑((5 * (zp % 146097 - yearStartDoe k) + 2) / 153) : Int) + 3 ≤ 2) by
        omega)]
    rw [if_pos hsplit,
        if_neg (show ¬ 10 ≤ (5 * (zp % 146097 - yearStartDoe k) + 2) / 153 by omega)]
    refine Prod.ext ?_ (Prod.ext ?_ ?_)
    · simp only
      omega
    · simp only
    · simp only
      unfold monthStartDoy at hmslo ⊢
      omega
  · rw [if_neg (show ¬ ((↑((5 * (zp % 146097 - yearStartDoe k) + 2) / 153) : Int) < 10) by
        exact_mod_cast hsplit)]
    rw [if_pos (show ((↑((5 * (zp % 146097 - yearStartDoe k) + 2) / 153) : Int) + -9 ≤ 2) by
        omega)]
    rw [if_neg hsplit,
        if_pos (show 10 ≤ (5 * (zp % 146097 - yearStartDoe k) + 2) / 153 by omega)]
    refine Prod.ext ?_ (Prod.ext ?_ ?_)
    · simp only
      omega
    · simp only
      omega
    · simp only
      unfold monthStartDoy at hmslo ⊢
      omega

theorem is_leap_iff (y : Int) (hy : 0 ≤ y) :
    is_leap y = true ↔ (y % 4 = 0 ∧ (y % 100 ≠ 0 ∨ y % 400 = 0)) := by
  unfold is_leap
  rw [Int.tmod_eq_emod hy (by norm_num), Int.tmod_eq_emod hy (by norm_num),
      Int.tmod_eq_emod hy (by norm_num)]
  simp [Bool.and_eq_true, Bool.or_eq_true]

theorem leap_iff_eraYearLen (y : Int) (hy : 1 ≤ y) (hy2 : y ≤ 9999) :
    (is_leap y = true) ↔ eraYearLen ((y - 1).toNat % 400) = 366 := by
  have hk : (y - 1).toNat % 400 < 400 := Nat.mod_lt _ (by omega)
  have hL4 := L4 ((y - 1).toNat % 400) hk
  rw [is_leap_iff y (by omega), hL4]
  omega



theorem ldim_eq (y m : Int) (hm : 1 ≤ m) (hm2 : m ≤ 12) :
    last_day_in_month y m = ↑(ldimN m.toNat (is_leap y)) := by
  by_cases hm2c : m = 2
  · subst hm2c
    cases hL : is_leap y <;> simp [last_day_in_month, ldimN, hL]
  · interval_cases m <;> simp_all [last_day_in_month, ldimN]

theorem mdA : ∀ nm < 13, (if 2 < nm then nm - 3 else nm + 9) < 12 := by decide

theorem mdB (L : Bool) : ∀ nm < 13, ∀ nd < 32, nd ≤ ldimN nm L →
    nd - 1 < shiftedMonthLen (if 2 < nm then nm - 3 else nm + 9) := by
  rcases L <;> decide

theorem mdC : ∀ nm < 13, ∀ nd < 32, nd ≤ ldimN nm false →
    (if 2 < nm then nm - 3 else nm + 9) = 11 → nd - 1 ≠ 28 := by decide

theorem ldimN_le (nm : Nat) (L : Bool) : ldimN nm L ≤ 31 := by
  unfold ldimN
  rcases L <;> rcases nm with _ | _ | _ | nm <;> simp [List.getD]
  all_goals
    rcases nm with _ | _ | _ | _ | _ | _ | _ | _ | _ | _ | nm <;> simp

theorem valid_to_shifted (y m d : Int) (hy : 1 ≤ y) (hy2 : y ≤ 9999) (hm : 1 ≤ m) (hm2 : m ≤ 12)
    (hd : 1 ≤ d) (hd2 : d ≤ last_day_in_month y m) :
    (y - (if m ≤ 2 then 1 else 0)).toNat ≤ 9999 ∧
    (if 2 < m then m - 3 else m + 9).toNat < 12 ∧
    (d - 1).toNat < shiftedMonthLen ((if 2 < m then m - 3 else m + 9).toNat) ∧
    (((if 2 < m then m - 3 else m + 9).toNat = 11 ∧ (d - 1).toNat = 28) →
      eraYearLen ((y - (if m ≤ 2 then 1 else 0)).toNat % 400) = 366) := by
  have hld := ldim_eq y m hm hm2
  rw [hld] at hd2
  have hnd : d.toNat ≤ ldimN m.toNat (is_leap y) := by omega
  have hnd32 : d.toNat < 32 := by
    have := ldimN_le m.toNat (is_leap y)
    omega
  have hnm13 : m.toNat < 13 := by omega
  have hmpE : (if 2 < m then m - 3 else m + 9).toNat
      = (if 2 < m.toNat then m.toNat - 3 else m.toNat + 9) := by
    rcases lt_or_le 2 m with h | h
    · rw [if_pos h, if_pos (by omega)]
      omega
    · rw [if_neg (not_lt.mpr h), if_neg (by omega)]
      omega
  refine ⟨?_, ?_, ?_, ?_⟩
  · rcases le_or_lt m 2 with h | h
    · rw [if_pos h]
      omega
    · rw [if_neg (not_le.mpr h)]
      omega
  · rw [hmpE]
    exact mdA m.toNat hnm13
  · rw [hmpE]
    have hb := mdB (is_leap y) m.toNat hnm13 d.toNat hnd32 hnd
    have he : (d - 1).toNat = d.toNat - 1 := by omega
    rw [he]
    exact hb
  · intro hcon
    obtain ⟨h11, h28⟩ := hcon
    rw [hmpE] at h11
    have hm2c : m = 2 := by
      by_cases hsplit : 2 < m.toNat
      · rw [if_pos hsplit] at h11
        omega
      · rw [if_neg hsplit] at h11
        omega
    subst hm2c
    rw [if_pos (show (2:Int) ≤ 2 by norm_num)]
    by_cases hL : is_leap y = true
    · exact (leap_iff_eraYearLen y hy hy2).mp hL
    · exfalso
      have hLf : is_leap y = false := by
        revert hL
        cases is_leap y <;> simp
      rw [hLf] at hnd
      have hc := mdC (Int.toNat 2) hnm13 d.toNat hnd32 hnd h11
      omega

theorem dfc_bridge (y m d : Int) (hy : 1 ≤ y) (hy2 : y ≤ 9999) (hm : 1 ≤ m) (hm2 : m ≤ 12) :
    days_from_civil y m d =
      ↑(daysFromCivilN (y - (if m ≤ 2 then 1 else 0)).toNat
          (if 2 < m then m - 3 else m + 9).toNat 0) + (d - 1) - 719468 := by
  rcases le_or_lt m 2 with hc | hc
  · have hyb : (0:Int) ≤ y - 1 := by omega
    simp only [days_from_civil, daysFromCivilN, yearStartDoe, monthStartDoy,
      if_pos hc, if_neg (not_lt.mpr hc), if_pos hyb]
    rw [Int.tdiv_eq_ediv hyb (by norm_num)]
    rw [Int.tdiv_eq_ediv (show (0:Int) ≤ y - 1 - (y - 1) / 400 * 400 by omega) (by norm_num),
        Int.tdiv_eq_ediv (show (0:Int) ≤ y - 1 - (y - 1) / 400 * 400 by omega) (by norm_num),
        Int.tdiv_eq_ediv (show (0:Int) ≤ 153 * (m + 9) + 2 by omega) (by norm_num)]
    omega
  · have hyb : (0:Int) ≤ y := by omega
    simp only [days_from_civil, daysFromCivilN, yearStartDoe, monthStartDoy,
      if_neg (not_le.mpr hc), if_pos hc, if_pos hyb, sub_zero]
    rw [Int.tdiv_eq_ediv hyb (by norm_num)]
    rw [Int.tdiv_eq_ediv (show (0:Int) ≤ y - y / 400 * 400 by omega) (by norm_num),
        Int.tdiv_eq_ediv (show (0:Int) ≤ y - y / 400 * 400 by omega) (by norm_num),
        Int.tdiv_eq_ediv (show (0:Int) ≤ 153 * (m - 3) + 2 by omega) (by norm_num)]
    omega

theorem civil_round_trip (y m d : Int) (hy : 1 ≤ y) (hy2 : y ≤ 9999) (hm : 1 ≤ m) (hm2 : m ≤ 12)
    (hd : 1 ≤ d) (hd2 : d ≤ last_day_in_month y m) :
    civil_from_days (days_from_civil y m d) = (y, m, d) := by
  obtain ⟨hv1, hv2, hv3, hv4⟩ := valid_to_shifted y m d hy hy2 hm hm2 hd hd2
  have hbridge := dfc_bridge y m d hy hy2 hm hm2
  have hdfcN : days_from_civil y m d
      = ↑(daysFromCivilN (y - (if m ≤ 2 then 1 else 0)).toNat
          (if 2 < m then m - 3 else m + 9).toNat (d - 1).toNat) - 719468 := by
    rw [hbridge]
    unfold daysFromCivilN
    omega
  have hr1 := rt1 (y - (if m ≤ 2 then 1 else 0)).toNat
      (if 2 < m then m - 3 else m + 9).toNat (d - 1).toNat hv2 hv3 hv4
  have hcfd := cfd_of_civilN (daysFromCivilN (y - (if m ≤ 2 then 1 else 0)).toNat
      (if 2 < m then m - 3 else m + 9).toNat (d - 1).toNat)
  rw [hr1] at hcfd
  dsimp only at hcfd
  rw [← hdfcN] at hcfd
  rw [hcfd]
  rcases le_or_lt m 2 with hc | hc
  · have hmpv : (if 2 < m then m - 3 else m + 9).toNat = (m + 9).toNat := by
      rw [if_neg (not_lt.mpr hc)]
    have hbv : (if m ≤ 2 then (1:Int) else 0) = 1 := if_pos hc
    rw [hmpv, hbv]
    have h10 : 10 ≤ (m + 9).toNat := by omega
    rw [if_pos h10, if_neg (not_lt.mpr h10)]
    refine Prod.ext ?_ (Prod.ext ?_ ?_)
    · dsimp only
      omega
    · dsimp only
      omega
    · dsimp only
      omega
  · have hmpv : (if 2 < m then m - 3 else m + 9).toNat = (m - 3).toNat := by
      rw [if_pos hc]
    have hbv : (if m ≤ 2 then (1:Int) else 0) = 0 := if_neg (not_le.mpr hc)
    rw [hmpv, hbv]
    have h10 : (m - 3).toNat < 10 := by omega
    rw [if_pos h10, if_neg (by omega : ¬ 10 ≤ (m - 3).toNat)]
    refine Prod.ext ?_ (Prod.ext ?_ ?_)
    · dsimp only
      omega
    · dsimp only
      omega
    · dsimp only
      omega

theorem mdRev_m : ∀ mp < 12,
    1 ≤ (if mp < 10 then mp + 3 else mp - 9) ∧ (if mp < 10 then mp + 3 else mp - 9) ≤ 12 := by
  decide

set_option maxRecDepth 4000 in
theorem mdRev_true : ∀ c < 384, c % 32 < shiftedMonthLen (c / 32) →
    c % 32 + 1 ≤ ldimN (if c / 32 < 10 then c / 32 + 3 else c / 32 - 9) true := by decide

set_option maxRecDepth 4000 in
theorem mdRev_false : ∀ c < 384, c % 32 < shiftedMonthLen (c / 32) →
    (c / 32 = 11 → c % 32 ≠ 28) →
    c % 32 + 1 ≤ ldimN (if c / 32 < 10 then c / 32 + 3 else c / 32 - 9) false := by decide

theorem shiftedMonthLen_le (mp : Nat) : shiftedMonthLen mp ≤ 31 := by
  unfold shiftedMonthLen
  rcases mp with _ | _ | _ | _ | _ | _ | _ | _ | _ | _ | _ | _ | mp <;> simp [List.getD]

set_option maxRecDepth 8000 in
theorem civil_reverse (z : Int) (hz1 : -719162 ≤ z) (hz2 : z ≤ 2932896) :
    1 ≤ (civil_from_days z).1 ∧ (civil_from_days z).1 ≤ 9999 ∧
    1 ≤ (civil_from_days z).2.1 ∧ (civil_from_days z).2.1 ≤ 12 ∧
    1 ≤ (civil_from_days z).2.2 ∧
    (civil_from_days z).2.2 ≤ last_day_in_month (civil_from_days z).1 (civil_from_days z).2.1 ∧
    days_from_civil (civil_from_days z).1 (civil_from_days z).2.1 (civil_from_days z).2.2
      = z := by
  have hzpE : ((z + 719468).toNat : Int) = z + 719468 := by omega
  have hcfd := cfd_of_civilN (z + 719468).toNat
  rw [show ((((z + 719468).toNat : Nat) : Int) - 719468) = z by omega] at hcfd
  obtain ⟨hrt, hy9999, hmp12, hd0len, hfeb, hbot, htop⟩ :=
    rt2 (z + 719468).toNat (by omega) (by omega)
  set nys := (civilFromDaysN (z + 719468).toNat).1 with hnys
  set nmp := (civilFromDaysN (z + 719468).toNat).2.1 with hnmp
  set nd0 := (civilFromDaysN (z + 719468).toNat).2.2 with hnd0
  have e1 : (nmp * 32 + nd0) / 32 = nmp := by
    have := shiftedMonthLen_le nmp
    omega
  have e2 : (nmp * 32 + nd0) % 32 = nd0 := by
    have := shiftedMonthLen_le nmp
    omega
  have hc384 : nmp * 32 + nd0 < 384 := by
    have := shiftedMonthLen_le nmp
    omega
  have hcmem : (nmp * 32 + nd0) % 32 < shiftedMonthLen ((nmp * 32 + nd0) / 32) := by
    rw [e1, e2]
    exact hd0len
  have hdle : ∀ yI : Int, (is_leap yI = false → ¬(nmp = 11 ∧ nd0 = 28)) →
      (nd0 : Int) + 1 ≤ ↑(ldimN (if nmp < 10 then nmp + 3 else nmp - 9) (is_leap yI)) := by
    intro yI hns
    by_cases hLeap : is_leap yI = true
    · rw [hLeap]
      have := mdRev_true (nmp * 32 + nd0) hc384 hcmem
      rw [e1, e2] at this
      exact_mod_cast this
    · have hLf : is_leap yI = false := by
        revert hLeap
        cases is_leap yI <;> simp
      rw [hLf]
      have := mdRev_false (nmp * 32 + nd0) hc384 hcmem (by
        rw [e1, e2]
        intro h11 h28
        exact hns hLf ⟨h11, h28⟩)
      rw [e1, e2] at this
      exact_mod_cast this
  rw [hcfd]
  dsimp only
  by_cases hsplit : nmp < 10
  · -- months March..December: no year shift
    rw [if_pos hsplit, if_neg (by omega : ¬ 10 ≤ nmp), add_zero]
    have hL : 1 ≤ (nys : Int) := by
      rcases hbot with h | h
      · omega
      · exact_mod_cast h
    have hyu : (nys : Int) ≤ 9999 := by exact_mod_cast hy9999
    have hm1 : (1 : Int) ≤ (nmp : Int) + 3 := by omega
    have hm2 : ((nmp : Int) + 3) ≤ 12 := by omega
    have hldim := ldim_eq (nys : Int) ((nmp : Int) + 3) hm1 hm2
    have htoNat : ((nmp : Int) + 3).toNat = nmp + 3 := by omega
    rw [htoNat] at hldim
    have hd_le : (nd0 : Int) + 1 ≤ last_day_in_month (nys : Int) ((nmp : Int) + 3) := by
      rw [hldim]
      have := hdle (nys : Int) (fun _ hc => by omega)
      rw [if_pos hsplit] at this
      exact this
    refine ⟨hL, hyu, by omega, by omega, by omega, hd_le, ?_⟩
    have hbridge := dfc_bridge (nys : Int) ((nmp : Int) + 3) ((nd0 : Int) + 1) hL hyu hm1 hm2
    rw [hbridge]
    rw [show (if ((nmp : Int) + 3) ≤ 2 then (1:Int) else 0) = 0 from if_neg (by omega),
        show (if (2:Int) < ((nmp : Int) + 3) then ((nmp : Int) + 3) - 3
          else ((nmp : Int) + 3) + 9) = (nmp : Int) from by rw [if_pos (by omega)]; ring]
    rw [show ((nys : Int) - 0).toNat = nys by omega,
        show ((nmp : Int)).toNat = nmp from Int.toNat_natCast nmp]
    unfold daysFromCivilN at hrt ⊢
    omega
  · -- January and February: the year is shifted by one
    rw [if_neg hsplit, if_pos (by omega : 10 ≤ nmp)]
    have hyu : (nys : Int) + 1 ≤ 9999 := by
      rcases htop with h | h
      · omega
      · omega
    have hL : 1 ≤ (nys : Int) + 1 := by omega
    have hm1 : (1 : Int) ≤ (nmp : Int) - 9 := by omega
    have hm2 : ((nmp : Int) - 9) ≤ 12 := by omega
    have hldim := ldim_eq ((nys : Int) + 1) ((nmp : Int) - 9) hm1 hm2
    have htoNat : ((nmp : Int) - 9).toNat = nmp - 9 := by omega
    rw [htoNat] at hldim
    have hd_le : (nd0 : Int) + 1 ≤ last_day_in_month ((nys : Int) + 1) ((nmp : Int) - 9) := by
      rw [hldim]
      by_cases hfebc : nmp = 11 ∧ nd0 = 28
      · obtain ⟨h11, h28⟩ := hfebc
        have hEra := hfeb ⟨h11, h28⟩
        have hLeap : is_leap ((nys : Int) + 1) = true := by
          rw [leap_iff_eraYearLen ((nys : Int) + 1) hL hyu]
          rw [show (((nys : Int) + 1) - 1).toNat = nys by omega]
          exact hEra
        rw [hLeap, h11]
        have hv : ldimN (11 - 9) true = 29 := by decide
        rw [hv]
        omega
      · have := hdle ((nys : Int) + 1) (fun _ hc => hfebc hc)
        rw [if_neg hsplit] at this
        exact this
    refine ⟨hL, hyu, by omega, by omega, by omega, hd_le, ?_⟩
    have hbridge := dfc_bridge ((nys : Int) + 1) ((nmp : Int) - 9) ((nd0 : Int) + 1)
      hL hyu hm1 hm2
    rw [hbridge]
    rw [show (if ((nmp : Int) - 9) ≤ 2 then (1:Int) else 0) = 1 from if_pos (by omega),
        show (if (2:Int) < ((nmp : Int) - 9) then ((nmp : Int) - 9) - 3
          else ((nmp : Int) - 9) + 9) = (nmp : Int) from by rw [if_neg (by omega)]; ring]
    rw [show ((nys : Int) + 1 - 1).toNat = nys by omega,
        show ((nmp : Int)).toNat = nmp from Int.toNat_natCast nmp]
    unfold daysFromCivilN at hrt ⊢
    omega

end Caesar

namespace Caesar

theorem since_midnight_split (h mi s us ps : Int)
    (hh : 0 ≤ h) (hh2 : h < 24) (hmi : 0 ≤ mi) (hmi2 : mi < 60)
    (hs : 0 ≤ s) (hs2 : s < 60) (hus : 0 ≤ us) (hus2 : us < 1000000)
    (hps : 0 ≤ ps) (hps2 : ps < 1000000) :
    0 ≤ h * psPerHour + mi * psPerMinute + s * psPerSecond + us * psPerMicrosecond + ps ∧
    h * psPerHour + mi * psPerMinute + s * psPerSecond + us * psPerMicrosecond + ps
      < psPerDay ∧
    (h * psPerHour + mi * psPerMinute + s * psPerSecond + us * psPerMicrosecond + ps).tdiv
      psPerHour = h ∧
    (mi * psPerMinute + s * psPerSecond + us * psPerMicrosecond + ps).tdiv psPerMinute = mi ∧
    (s * psPerSecond + us * psPerMicrosecond + ps).tdiv psPerSecond = s ∧
    (us * psPerMicrosecond + ps).tdiv psPerMicrosecond = us := by
  unfold psPerDay psPerHour psPerMinute psPerSecond psPerMicrosecond
  norm_num
  refine ⟨by omega, by omega, ?_, ?_, ?_, ?_⟩
  · rw [Int.tdiv_eq_ediv (by omega) (by omega)]
    omega
  · rw [Int.tdiv_eq_ediv (by omega) (by omega)]
    omega
  · rw [Int.tdiv_eq_ediv (by omega) (by omega)]
    omega
  · rw [Int.tdiv_eq_ediv (by omega) (by omega)]
    omega



theorem gps_ticks_accessors (D sm : Int) (hsm : 0 ≤ sm) (hsm2 : sm < psPerDay) :
    (GPSTime.mk ((D - gpsEpochDays) * psPerDay + sm)).date = civil_from_days D ∧
    (GPSTime.mk ((D - gpsEpochDays) * psPerDay + sm)).timeOfDay = sm := by
  unfold psPerDay psPerSecond at hsm2
  constructor
  · show civil_from_days
        (((D - gpsEpochDays) * psPerDay + sm + gpsEpochDays * psPerDay).fdiv psPerDay)
        = civil_from_days D
    congr 1
    unfold gpsEpochDays psPerDay psPerSecond
    rw [Int.fdiv_eq_ediv _ (by norm_num)]
    omega
  · show ((D - gpsEpochDays) * psPerDay + sm) -
        psPerDay * (((D - gpsEpochDays) * psPerDay + sm).fdiv psPerDay) = sm
    unfold gpsEpochDays psPerDay psPerSecond
    rw [Int.fdiv_eq_ediv _ (by norm_num)]
    omega

theorem fromComponents_ok (y mo d h mi s us ps : Int)
    (hy : 1 ≤ y) (hy2 : y ≤ 9999) (hmo : 1 ≤ mo) (hmo2 : mo ≤ 12)
    (hd : 1 ≤ d) (hd2 : d ≤ last_day_in_month y mo)
    (hh : 0 ≤ h) (hh2 : h < 24) (hmi : 0 ≤ mi) (hmi2 : mi < 60)
    (hs : 0 ≤ s) (hs2 : s < 60) (hus : 0 ≤ us) (hus2 : us < 1000000)
    (hps : 0 ≤ ps) (hps2 : ps < 1000000) :
    GPSTime.fromComponents y mo d h mi s us ps = .ok ⟨gpsTicksOf y mo d h mi s us ps⟩ := by
  unfold GPSTime.fromComponents
  repeat rw [if_neg (by omega : ¬_)]

theorem accessor_bundle (y mo d h mi s us ps : Int)
    (hy : 1 ≤ y) (hy2 : y ≤ 9999) (hmo : 1 ≤ mo) (hmo2 : mo ≤ 12)
    (hd : 1 ≤ d) (hd2 : d ≤ last_day_in_month y mo)
    (hh : 0 ≤ h) (hh2 : h < 24) (hmi : 0 ≤ mi) (hmi2 : mi < 60)
    (hs : 0 ≤ s) (hs2 : s < 60) (hus : 0 ≤ us) (hus2 : us < 1000000)
    (hps : 0 ≤ ps) (hps2 : ps < 1000000) :
    (GPSTime.mk (gpsTicksOf y mo d h mi s us ps)).year = y ∧
    (GPSTime.mk (gpsTicksOf y mo d h mi s us ps)).month = mo ∧
    (GPSTime.mk (gpsTicksOf y mo d h mi s us ps)).day = d ∧
    (GPSTime.mk (gpsTicksOf y mo d h mi s us ps)).hour = h ∧
    (GPSTime.mk (gpsTicksOf y mo d h mi s us ps)).minute = mi ∧
    (GPSTime.mk (gpsTicksOf y mo d h mi s us ps)).second = s ∧
    (GPSTime.mk (gpsTicksOf y mo d h mi s us ps)).microsecond = us ∧
    (GPSTime.mk (gpsTicksOf y mo d h mi s us ps)).picosecond = ps := by
  obtain ⟨hsm0, hsmD, hsH, hsM, hsS, hsU⟩ :=
    since_midnight_split h mi s us ps hh hh2 hmi hmi2 hs hs2 hus hus2 hps hps2
  have he : gpsTicksOf y mo d h mi s us ps
      = (days_from_civil y mo d - gpsEpochDays) * psPerDay +
        (h * psPerHour + mi * psPerMinute + s * psPerSecond + us * psPerMicrosecond + ps) := by
    unfold gpsTicksOf
    ring
  rw [he]
  obtain ⟨hdate, htod⟩ := gps_ticks_accessors (days_from_civil y mo d)
    (h * psPerHour + mi * psPerMinute + s * psPerSecond + us * psPerMicrosecond + ps)
    hsm0 hsmD
  have hcivil := civil_round_trip y mo d hy hy2 hmo hmo2 hd hd2
  rw [hcivil] at hdate
  have hY : (GPSTime.mk ((days_from_civil y mo d - gpsEpochDays) * psPerDay +
      (h * psPerHour + mi * psPerMinute + s * psPerSecond + us * psPerMicrosecond + ps))).year
      = y := by
    unfold GPSTime.year
    rw [hdate]
  have hMo : (GPSTime.mk ((days_from_civil y mo d - gpsEpochDays) * psPerDay +
      (h * psPerHour + mi * psPerMinute + s * psPerSecond + us * psPerMicrosecond + ps))).month
      = mo := by
    unfold GPSTime.month
    rw [hdate]
  have hD : (GPSTime.mk ((days_from_civil y mo d - gpsEpochDays) * psPerDay +
      (h * psPerHour + mi * psPerMinute + s * psPerSecond + us * psPerMicrosecond + ps))).day
      = d := by
    unfold GPSTime.day
    rw [hdate]
  have hH : (GPSTime.mk ((days_from_civil y mo d - gpsEpochDays) * psPerDay +
      (h * psPerHour + mi * psPerMinute + s * psPerSecond + us * psPerMicrosecond + ps))).hour
      = h := by
    unfold GPSTime.hour
    rw [htod]
    exact hsH
  have hMi : (GPSTime.mk ((days_from_civil y mo d - gpsEpochDays) * psPerDay +
      (h * psPerHour + mi * psPerMinute + s * psPerSecond + us * psPerMicrosecond + ps))).minute
      = mi := by
    unfold GPSTime.minute
    rw [htod, hH]
    rw [show h * psPerHour + mi * psPerMinute + s * psPerSecond + us * psPerMicrosecond + ps
        - h * psPerHour = mi * psPerMinute + s * psPerSecond + us * psPerMicrosecond + ps
      from by ring]
    exact hsM
  have hS : (GPSTime.mk ((days_from_civil y mo d - gpsEpochDays) * psPerDay +
      (h * psPerHour + mi * psPerMinute + s * psPerSecond + us * psPerMicrosecond + ps))).second
      = s := by
    unfold GPSTime.second
    rw [htod, hH, hMi]
    rw [show h * psPerHour + mi * psPerMinute + s * psPerSecond + us * psPerMicrosecond + ps
        - h * psPerHour - mi * psPerMinute
        = s * psPerSecond + us * psPerMicrosecond + ps from by ring]
    exact hsS
  have hSub : (GPSTime.mk ((days_from_civil y mo d - gpsEpochDays) * psPerDay +
      (h * psPerHour + mi * psPerMinute + s * psPerSecond + us * psPerMicrosecond +
        ps))).subseconds = us * psPerMicrosecond + ps := by
    unfold GPSTime.subseconds
    rw [htod, hH, hMi, hS]
    ring
  have hU : (GPSTime.mk ((days_from_civil y mo d - gpsEpochDays) * psPerDay +
      (h * psPerHour + mi * psPerMinute + s * psPerSecond + us * psPerMicrosecond +
        ps))).microsecond = us := by
    unfold GPSTime.microsecond
    rw [hSub]
    exact hsU
  have hP : (GPSTime.mk ((days_from_civil y mo d - gpsEpochDays) * psPerDay +
      (h * psPerHour + mi * psPerMinute + s * psPerSecond + us * psPerMicrosecond +
        ps))).picosecond = ps := by
    unfold GPSTime.picosecond
    rw [hSub, hsU]
    ring
  exact ⟨hY, hMo, hD, hH, hMi, hS, hU, hP⟩




/-- C1: constructing a GPSTime from any broken-down components satisfying
the documented range constraints succeeds, and reading the components back
through the accessors returns exactly the inputs. -/
theorem C1_component_round_trip (y mo d h mi s us ps : Int)
    (hy : 1 ≤ y) (hy2 : y ≤ 9999) (hmo : 1 ≤ mo) (hmo2 : mo ≤ 12)
    (hd : 1 ≤ d) (hd2 : d ≤ last_day_in_month y mo)
    (hh : 0 ≤ h) (hh2 : h < 24) (hmi : 0 ≤ mi) (hmi2 : mi < 60)
    (hs : 0 ≤ s) (hs2 : s < 60) (hus : 0 ≤ us) (hus2 : us < 1000000)
    (hps : 0 ≤ ps) (hps2 : ps < 1000000) :
    ∃ t : GPSTime, GPSTime.fromComponents y mo d h mi s us ps = .ok t ∧
      t.year = y ∧ t.month = mo ∧ t.day = d ∧ t.hour = h ∧ t.minute = mi ∧
      t.second = s ∧ t.microsecond = us ∧ t.picosecond = ps := by
  refine ⟨⟨gpsTicksOf y mo d h mi s us ps⟩,
    fromComponents_ok y mo d h mi s us ps hy hy2 hmo hmo2 hd hd2 hh hh2 hmi hmi2 hs hs2
      hus hus2 hps hps2, ?_⟩
  exact accessor_bundle y mo d h mi s us ps hy hy2 hmo hmo2 hd hd2 hh hh2 hmi hmi2 hs hs2
    hus hus2 hps hps2

/-- Witness for C1 at the components (2001, 2, 3, 4, 5, 6, 7, 8). -/
theorem C1_component_round_trip_witness :
    ∃ t : GPSTime, GPSTime.fromComponents 2001 2 3 4 5 6 7 8 = .ok t ∧
      t.year = 2001 ∧ t.month = 2 ∧ t.day = 3 ∧ t.hour = 4 ∧ t.minute = 5 ∧
      t.second = 6 ∧ t.microsecond = 7 ∧ t.picosecond = 8 :=
  C1_component_round_trip 2001 2 3 4 5 6 7 8 (by norm_num) (by norm_num) (by norm_num)
    (by norm_num) (by norm_num) (by decide) (by norm_num) (by norm_num) (by norm_num)
    (by norm_num) (by norm_num) (by norm_num) (by norm_num) (by norm_num) (by norm_num)
    (by norm_num)



set_option maxHeartbeats 2000000 in
/-- C3: component construction fails with an invalid-argument error
exactly when some component is out of its documented range (with
leap-year-aware February lengths), for both the GPSTime constructor
(microsecond/picosecond groups below one million) and the v2 DateTime
constructor (four subsecond groups below one thousand); on failure the
result carries no instant value, only the error. -/
theorem C3_validation_iff :
    (∀ y mo d h mi s us ps : Int,
      (∃ e, GPSTime.fromComponents y mo d h mi s us ps = .error e) ↔
        ¬(1 ≤ y ∧ y ≤ 9999 ∧ 1 ≤ mo ∧ mo ≤ 12 ∧ 1 ≤ d ∧ d ≤ last_day_in_month y mo ∧
          0 ≤ h ∧ h < 24 ∧ 0 ≤ mi ∧ mi < 60 ∧ 0 ≤ s ∧ s < 60 ∧
          0 ≤ us ∧ us < 1000000 ∧ 0 ≤ ps ∧ ps < 1000000)) ∧
    (∀ y mo d h mi s ms us ns ps : Int,
      (∃ e, DateTime.fromComponents y mo d h mi s ms us ns ps = .error e) ↔
        ¬(1 ≤ y ∧ y ≤ 9999 ∧ 1 ≤ mo ∧ mo ≤ 12 ∧ 1 ≤ d ∧ d ≤ last_day_in_month y mo ∧
          0 ≤ h ∧ h < 24 ∧ 0 ≤ mi ∧ mi < 60 ∧ 0 ≤ s ∧ s < 60 ∧
          0 ≤ ms ∧ ms < 1000 ∧ 0 ≤ us ∧ us < 1000 ∧ 0 ≤ ns ∧ ns < 1000 ∧
          0 ≤ ps ∧ ps < 1000)) := by
  constructor
  · intro y mo d h mi s us ps
    unfold GPSTime.fromComponents
    split_ifs with h1 h2 h3 h4 h5 h6 h7 h8
    · exact iff_of_true ⟨_, rfl⟩ (by omega)
    · exact iff_of_true ⟨_, rfl⟩ (by omega)
    · exact iff_of_true ⟨_, rfl⟩ (by omega)
    · exact iff_of_true ⟨_, rfl⟩ (by omega)
    · exact iff_of_true ⟨_, rfl⟩ (by omega)
    · exact iff_of_true ⟨_, rfl⟩ (by omega)
    · exact iff_of_true ⟨_, rfl⟩ (by omega)
    · exact iff_of_true ⟨_, rfl⟩ (by omega)
    · refine iff_of_false ?_ (fun hn => hn (by omega))
      rintro ⟨e, he⟩
      cases he
  · intro y mo d h mi s ms us ns ps
    unfold DateTime.fromComponents
    split_ifs with h1 h2 h3 h4 h5 h6 h7 h8 h9 h10
    · exact iff_of_true ⟨_, rfl⟩ (by omega)
    · exact iff_of_true ⟨_, rfl⟩ (by omega)
    · exact iff_of_true ⟨_, rfl⟩ (by omega)
    · exact iff_of_true ⟨_, rfl⟩ (by omega)
    · exact iff_of_true ⟨_, rfl⟩ (by omega)
    · exact iff_of_true ⟨_, rfl⟩ (by omega)
    · exact iff_of_true ⟨_, rfl⟩ (by omega)
    · exact iff_of_true ⟨_, rfl⟩ (by omega)
    · exact iff_of_true ⟨_, rfl⟩ (by omega)
    · exact iff_of_true ⟨_, rfl⟩ (by omega)
    · refine iff_of_false ?_ (fun hn => hn (by omega))
      rintro ⟨e, he⟩
      cases he

/-- Witness for C3: day 29 of February 2001 (not a leap year) is rejected
by GPSTime, and month 13 is rejected by DateTime. -/
theorem C3_validation_iff_witness :
    (∃ e, GPSTime.fromComponents 2001 2 29 0 0 0 0 0 = .error e) ∧
    (∃ e, DateTime.fromComponents 2000 13 1 0 0 0 0 0 0 0 = .error e) :=
  ⟨(C3_validation_iff.1 2001 2 29 0 0 0 0 0).mpr (by decide),
   (C3_validation_iff.2 2000 13 1 0 0 0 0 0 0 0).mpr (by decide)⟩




theorem digitChar_spec : ∀ d < 10, (digitChar d).isDigit = true ∧ (digitChar d).toNat = 48 + d := by
  decide

theorem digitsVal_cons (c : Char) (l : List Char) :
    digitsVal (c :: l) = (c.toNat - 48) * 10 ^ l.length + digitsVal l := by
  unfold digitsVal
  have gen : ∀ (l : List Char) (a : Nat),
      List.foldl (fun a c => a * 10 + (c.toNat - 48)) a l
        = a * 10 ^ l.length + List.foldl (fun a c => a * 10 + (c.toNat - 48)) 0 l := by
    intro l
    induction l with
    | nil => intro a; simp
    | cons c2 l2 ih =>
      intro a
      simp only [List.foldl_cons, List.length_cons]
      rw [ih (a * 10 + (c2.toNat - 48)), ih (0 * 10 + (c2.toNat - 48))]
      ring
  simp only [List.foldl_cons]
  rw [gen l (0 * 10 + (c.toNat - 48))]
  ring

theorem digitsVal_append (l1 l2 : List Char) :
    digitsVal (l1 ++ l2) = digitsVal l1 * 10 ^ l2.length + digitsVal l2 := by
  induction l1 with
  | nil => simp [digitsVal]
  | cons c l ih =>
    simp only [List.cons_append]
    rw [digitsVal_cons, digitsVal_cons, ih]
    simp only [List.length_append]
    rw [pow_add]
    ring

theorem digitsVal_replicate_zero (k : Nat) : digitsVal (List.replicate k '0') = 0 := by
  induction k with
  | zero => rfl
  | succ n ih =>
    rw [List.replicate_succ, digitsVal_cons, ih]
    simp

theorem digitsVal_lt (l : List Char) (hl : ∀ c ∈ l, c.isDigit = true) :
    digitsVal l < 10 ^ l.length := by
  induction l with
  | nil => simp [digitsVal]
  | cons c l ih =>
    rw [digitsVal_cons]
    have hc := hl c (by simp)
    have hcv : c.toNat - 48 < 10 := by
      unfold Char.isDigit at hc
      simp only [Bool.and_eq_true, decide_eq_true_eq] at hc
      have h1 : c ≤ '9' := hc.2
      have : c.toNat ≤ 57 := h1
      omega
    have hrec := ih (fun c2 hc2 => hl c2 (by simp [hc2]))
    simp only [List.length_cons]
    calc (c.toNat - 48) * 10 ^ l.length + digitsVal l
        < (c.toNat - 48) * 10 ^ l.length + 10 ^ l.length := by omega
      _ = ((c.toNat - 48) + 1) * 10 ^ l.length := by ring
      _ ≤ 10 * 10 ^ l.length := by
          have : (c.toNat - 48) + 1 ≤ 10 := by omega
          exact Nat.mul_le_mul_right _ this
      _ = 10 ^ (l.length + 1) := by rw [pow_succ]; ring

theorem natDigitsAux_spec : ∀ fuel n, n < fuel →
    (∀ c ∈ natDigitsAux fuel n, c.isDigit = true) ∧
    digitsVal (natDigitsAux fuel n) = n ∧
    natDigitsAux fuel n ≠ [] ∧
    (∀ w, 0 < w → n < 10 ^ w → (natDigitsAux fuel n).length ≤ w) := by
  intro fuel
  induction fuel with
  | zero => intro n hn; omega
  | succ fuel ih =>
    intro n hn
    unfold natDigitsAux
    by_cases hsmall : n < 10
    · rw [if_pos hsmall]
      obtain ⟨hdig, hval⟩ := digitChar_spec n hsmall
      refine ⟨fun c hc => by
        simp only [List.mem_singleton] at hc
        rw [hc]; exact hdig, ?_, by simp, ?_⟩
      · rw [show [digitChar n] = digitChar n :: [] from rfl, digitsVal_cons]
        simp [digitsVal, hval]
      · intro w hw _
        simpa using hw
    · rw [if_neg hsmall]
      have hrec : n / 10 < fuel := by omega
      obtain ⟨ihd, ihv, ihne, ihlen⟩ := ih (n / 10) hrec
      have hd10 : n % 10 < 10 := Nat.mod_lt _ (by omega)
      obtain ⟨hdig, hval⟩ := digitChar_spec (n % 10) hd10
      refine ⟨?_, ?_, by simp, ?_⟩
      · intro c hc
        rcases List.mem_append.mp hc with hc1 | hc2
        · exact ihd c hc1
        · simp only [List.mem_singleton] at hc2
          exact hc2 ▸ hdig
      · rw [digitsVal_append, ihv]
        rw [show digitsVal [digitChar (n % 10)] = n % 10 from by
          rw [show [digitChar (n % 10)] = digitChar (n % 10) :: [] from rfl, digitsVal_cons]
          simp [digitsVal, hval]]
        simp
        omega
      · intro w hw hnw
        simp only [List.length_append, List.length_singleton]
        have hw2 : 1 < w := by
          by_contra hc
          have : w = 1 := by omega
          subst this
          simp at hnw
          omega
        have : n / 10 < 10 ^ (w - 1) := by
          have h10 : 10 ^ w = 10 ^ (w - 1) * 10 := by
            rw [← pow_succ]
            congr 1
            omega
          omega
        have := ihlen (w - 1) (by omega) this
        omega

theorem natDigits_spec (n : Nat) :
    (∀ c ∈ natDigits n, c.isDigit = true) ∧
    digitsVal (natDigits n) = n ∧
    natDigits n ≠ [] ∧
    (∀ w, 0 < w → n < 10 ^ w → (natDigits n).length ≤ w) :=
  natDigitsAux_spec (n + 1) n (by omega)


theorem zeroPad_spec (w : Nat) (l : List Char) (hl : ∀ c ∈ l, c.isDigit = true)
    (hlen : l.length ≤ w) :
    (zeroPad w l).length = w ∧ (∀ c ∈ zeroPad w l, c.isDigit = true) ∧
    digitsVal (zeroPad w l) = digitsVal l := by
  unfold zeroPad
  refine ⟨?_, ?_, ?_⟩
  · simp only [List.length_append, List.length_replicate]
    omega
  · intro c hc
    rcases List.mem_append.mp hc with hc1 | hc2
    · have := List.eq_of_mem_replicate hc1
      rw [this]; decide
    · exact hl c hc2
  · rw [digitsVal_append, digitsVal_replicate_zero]
    omega

theorem trimTrailingZeros_spec (l : List Char) :
    ∃ k, trimTrailingZeros l ++ List.replicate k '0' = l := by
  unfold trimTrailingZeros
  by_cases hall : l.all (fun c => c == '0')
  · rw [if_pos hall]
    exact ⟨0, by simp⟩
  · rw [if_neg hall]
    refine ⟨(l.reverse.takeWhile (fun c => c == '0')).length, ?_⟩
    have hsplit : l.reverse.takeWhile (fun c => c == '0') ++ l.reverse.dropWhile (fun c => c == '0') = l.reverse :=
      List.takeWhile_append_dropWhile _ _
    have htake : l.reverse.takeWhile (fun c => c == '0') = List.replicate (l.reverse.takeWhile (fun c => c == '0')).length '0' := by
      apply List.eq_replicate_of_mem
      intro c hc
      have := List.mem_takeWhile_imp hc
      simpa using this
    have : ((l.reverse.dropWhile (fun c => c == '0')).reverse ++ List.replicate (l.reverse.takeWhile (fun c => c == '0')).length '0').reverse = l.reverse := by
      rw [List.reverse_append, List.reverse_reverse]
      rw [show (List.replicate (l.reverse.takeWhile (fun c => c == '0')).length '0').reverse = List.replicate (l.reverse.takeWhile (fun c => c == '0')).length '0' from List.reverse_replicate _ _]
      rw [← htake]
      exact hsplit
    have := congrArg List.reverse this
    rwa [List.reverse_reverse, List.reverse_reverse] at this

theorem readDigitsAux_spec : ∀ (l : List Char) (acc : Nat) (rest : List Char),
    (∀ c ∈ l, c.isDigit = true) →
    readDigitsAux acc l.length (l ++ rest) = some (acc * 10 ^ l.length + digitsVal l, rest) := by
  intro l
  induction l with
  | nil => intro acc rest _; simp [readDigitsAux, digitsVal]
  | cons c l ih =>
    intro acc rest hdig
    have hc := hdig c (by simp)
    simp only [List.length_cons, List.cons_append]
    unfold readDigitsAux
    rw [if_pos hc]
    rw [ih (acc * 10 + (c.toNat - 48)) rest (fun c2 hc2 => hdig c2 (by simp [hc2]))]
    rw [digitsVal_cons]
    congr 2
    ring

theorem readDigits_spec (l rest : List Char) (hdig : ∀ c ∈ l, c.isDigit = true) :
    readDigits l.length (l ++ rest) = some (digitsVal l, rest) := by
  unfold readDigits
  rw [readDigitsAux_spec l 0 rest hdig]
  simp



theorem tod_split (sm h mi s sub us ps : Int) (h0 : 0 ≤ sm) (h1 : sm < psPerDay)
    (hh : h = sm.tdiv psPerHour)
    (hmi : mi = (sm - h * psPerHour).tdiv psPerMinute)
    (hs : s = (sm - h * psPerHour - mi * psPerMinute).tdiv psPerSecond)
    (hsub : sub = sm - h * psPerHour - mi * psPerMinute - s * psPerSecond)
    (hus : us = sub.tdiv psPerMicrosecond)
    (hps : ps = sub - sub.tdiv psPerMicrosecond * psPerMicrosecond) :
    0 ≤ h ∧ h < 24 ∧ 0 ≤ mi ∧ mi < 60 ∧ 0 ≤ s ∧ s < 60 ∧
    0 ≤ us ∧ us < 1000000 ∧ 0 ≤ ps ∧ ps < 1000000 ∧
    h * psPerHour + mi * psPerMinute + s * psPerSecond + us * psPerMicrosecond + ps = sm := by
  simp only [psPerDay, psPerHour, psPerMinute, psPerSecond, psPerMicrosecond] at h1 hh hmi hs hsub hus hps ⊢
  norm_num at h1 hh hmi hs hsub hus hps ⊢
  have e1 : sm.tdiv 3600000000000000 = sm / 3600000000000000 :=
    Int.tdiv_eq_ediv h0 (by norm_num)
  rw [e1] at hh
  have e2 : (sm - h * 3600000000000000).tdiv 60000000000000
      = (sm - h * 3600000000000000) / 60000000000000 :=
    Int.tdiv_eq_ediv (by omega) (by norm_num)
  rw [e2] at hmi
  have e3 : (sm - h * 3600000000000000 - mi * 60000000000000).tdiv 1000000000000
      = (sm - h * 3600000000000000 - mi * 60000000000000) / 1000000000000 :=
    Int.tdiv_eq_ediv (by omega) (by norm_num)
  rw [e3] at hs
  have e4 : sub.tdiv 1000000 = sub / 1000000 :=
    Int.tdiv_eq_ediv (by omega) (by norm_num)
  rw [e4] at hus hps
  omega

theorem reverse_components (t : GPSTime)
    (hlo : GPSTime.minValue.timePoint ≤ t.timePoint)
    (hhi : t.timePoint ≤ GPSTime.maxValue.timePoint) :
    1 ≤ t.year ∧ t.year ≤ 9999 ∧ 1 ≤ t.month ∧ t.month ≤ 12 ∧
    1 ≤ t.day ∧ t.day ≤ last_day_in_month t.year t.month ∧
    0 ≤ t.hour ∧ t.hour < 24 ∧ 0 ≤ t.minute ∧ t.minute < 60 ∧
    0 ≤ t.second ∧ t.second < 60 ∧
    0 ≤ t.microsecond ∧ t.microsecond < 1000000 ∧
    0 ≤ t.picosecond ∧ t.picosecond < 1000000 ∧
    gpsTicksOf t.year t.month t.day t.hour t.minute t.second t.microsecond t.picosecond
      = t.timePoint := by
  obtain ⟨tp⟩ := t
  have hd1 : days_from_civil 1 1 1 = -719162 := by decide
  have hd2 : days_from_civil 9999 12 31 = 2932896 := by decide
  have hPpos : (0:Int) < psPerDay := by norm_num [psPerDay, psPerSecond]
  have hlo' : (-722819 : Int) * psPerDay ≤ tp := by
    have hmv : GPSTime.minValue.timePoint = (-722819 : Int) * psPerDay := by
      unfold GPSTime.minValue gpsTicksOf gpsEpochDays
      rw [hd1]; ring
    rw [hmv] at hlo; exact hlo
  have hhi' : tp ≤ 2929239 * psPerDay + 23 * psPerHour + 59 * psPerMinute + 59 * psPerSecond
      + 999999 * psPerMicrosecond + 999999 := by
    have hmv : GPSTime.maxValue.timePoint
        = 2929239 * psPerDay + 23 * psPerHour + 59 * psPerMinute + 59 * psPerSecond
          + 999999 * psPerMicrosecond + 999999 := by
      unfold GPSTime.maxValue gpsTicksOf gpsEpochDays
      rw [hd2]; ring
    rw [hmv] at hhi; exact hhi
  simp only [psPerDay, psPerHour, psPerMinute, psPerSecond, psPerMicrosecond] at hlo' hhi'
  norm_num at hlo' hhi'
  have htod : (GPSTime.mk tp).timeOfDay = tp - psPerDay * (tp / psPerDay) := by
    unfold GPSTime.timeOfDay
    rw [Int.fdiv_eq_ediv _ (le_of_lt hPpos)]
  have hdate : (GPSTime.mk tp).date = civil_from_days (tp / psPerDay + gpsEpochDays) := by
    show civil_from_days ((tp + gpsEpochDays * psPerDay).fdiv psPerDay)
        = civil_from_days (tp / psPerDay + gpsEpochDays)
    congr 1
    rw [Int.fdiv_eq_ediv _ (le_of_lt hPpos)]
    simp only [gpsEpochDays, psPerDay, psPerSecond]
    omega
  have hDb : -719162 ≤ tp / psPerDay + gpsEpochDays ∧
      tp / psPerDay + gpsEpochDays ≤ 2932896 := by
    simp only [gpsEpochDays, psPerDay, psPerSecond]
    norm_num
    constructor <;> omega
  obtain ⟨hy1, hy2, hm1, hm2, hdd1, hdd2, hdfc⟩ :=
    civil_reverse (tp / psPerDay + gpsEpochDays) hDb.1 hDb.2
  have hY : (GPSTime.mk tp).year = (civil_from_days (tp / psPerDay + gpsEpochDays)).1 := by
    unfold GPSTime.year; rw [hdate]
  have hM : (GPSTime.mk tp).month = (civil_from_days (tp / psPerDay + gpsEpochDays)).2.1 := by
    unfold GPSTime.month; rw [hdate]
  have hD : (GPSTime.mk tp).day = (civil_from_days (tp / psPerDay + gpsEpochDays)).2.2 := by
    unfold GPSTime.day; rw [hdate]
  have hsm0 : 0 ≤ tp - psPerDay * (tp / psPerDay) := by
    simp only [psPerDay, psPerSecond]; norm_num; omega
  have hsm1 : tp - psPerDay * (tp / psPerDay) < psPerDay := by
    simp only [psPerDay, psPerSecond]; norm_num; omega
  have hhEq : (GPSTime.mk tp).hour = (tp - psPerDay * (tp / psPerDay)).tdiv psPerHour := by
    unfold GPSTime.hour; rw [htod]
  have hmiEq : (GPSTime.mk tp).minute
      = (tp - psPerDay * (tp / psPerDay) - (GPSTime.mk tp).hour * psPerHour).tdiv
          psPerMinute := by
    unfold GPSTime.minute; rw [htod]
  have hsEq : (GPSTime.mk tp).second
      = (tp - psPerDay * (tp / psPerDay) - (GPSTime.mk tp).hour * psPerHour
          - (GPSTime.mk tp).minute * psPerMinute).tdiv psPerSecond := by
    unfold GPSTime.second; rw [htod]
  have hsubEq : (GPSTime.mk tp).subseconds
      = tp - psPerDay * (tp / psPerDay) - (GPSTime.mk tp).hour * psPerHour
          - (GPSTime.mk tp).minute * psPerMinute - (GPSTime.mk tp).second * psPerSecond := by
    unfold GPSTime.subseconds; rw [htod]
  have husEq : (GPSTime.mk tp).microsecond
      = (GPSTime.mk tp).subseconds.tdiv psPerMicrosecond := rfl
  have hpsEq : (GPSTime.mk tp).picosecond
      = (GPSTime.mk tp).subseconds
          - (GPSTime.mk tp).subseconds.tdiv psPerMicrosecond * psPerMicrosecond := rfl
  obtain ⟨hb1, hb2, hb3, hb4, hb5, hb6, hb7, hb8, hb9, hb10, hrec⟩ :=
    tod_split (tp - psPerDay * (tp / psPerDay)) ((GPSTime.mk tp).hour)
      ((GPSTime.mk tp).minute) ((GPSTime.mk tp).second) ((GPSTime.mk tp).subseconds)
      ((GPSTime.mk tp).microsecond) ((GPSTime.mk tp).picosecond)
      hsm0 hsm1 hhEq hmiEq hsEq hsubEq husEq hpsEq
  refine ⟨?_, ?_, ?_, ?_, ?_, ?_, hb1, hb2, hb3, hb4, hb5, hb6, hb7, hb8, hb9, hb10, ?_⟩
  · rw [hY]; exact hy1
  · rw [hY]; exact hy2
  · rw [hM]; exact hm1
  · rw [hM]; exact hm2
  · rw [hD]; exact hdd1
  · rw [hY, hM, hD]; exact hdd2
  · show (days_from_civil (GPSTime.mk tp).year (GPSTime.mk tp).month (GPSTime.mk tp).day
        - gpsEpochDays) * psPerDay + (GPSTime.mk tp).hour * psPerHour
        + (GPSTime.mk tp).minute * psPerMinute + (GPSTime.mk tp).second * psPerSecond
        + (GPSTime.mk tp).microsecond * psPerMicrosecond + (GPSTime.mk tp).picosecond = tp
    rw [hY, hM, hD, hdfc]
    simp only [gpsEpochDays, psPerDay, psPerHour, psPerMinute, psPerSecond,
      psPerMicrosecond] at hrec ⊢
    norm_num at hrec ⊢
    omega


set_option maxHeartbeats 4000000 in
theorem parseChars_shape (Y MO D H MI S rest : List Char)
    (hY : Y.length = 4) (hMO : MO.length = 2) (hD : D.length = 2)
    (hH : H.length = 2) (hMI : MI.length = 2) (hS : S.length = 2)
    (dY : ∀ c ∈ Y, c.isDigit = true) (dMO : ∀ c ∈ MO, c.isDigit = true)
    (dD : ∀ c ∈ D, c.isDigit = true) (dH : ∀ c ∈ H, c.isDigit = true)
    (dMI : ∀ c ∈ MI, c.isDigit = true) (dS : ∀ c ∈ S, c.isDigit = true) :
    GPSTime.parseChars (Y ++ ['-'] ++ MO ++ ['-'] ++ D ++ ['T'] ++ H ++ [':'] ++ MI
        ++ [':'] ++ S ++ rest)
      = (match rest with
         | [] => some (digitsVal Y, digitsVal MO, digitsVal D, digitsVal H, digitsVal MI,
             digitsVal S, [])
         | '.' :: ds =>
           if 1 ≤ ds.length ∧ ds.length ≤ 12 ∧ ds.all Char.isDigit then
             some (digitsVal Y, digitsVal MO, digitsVal D, digitsVal H, digitsVal MI,
               digitsVal S, ds)
           else none
         | _ => none) := by
  unfold GPSTime.parseChars
  rw [show Y ++ ['-'] ++ MO ++ ['-'] ++ D ++ ['T'] ++ H ++ [':'] ++ MI ++ [':'] ++ S ++ rest
      = Y ++ ('-' :: (MO ++ ('-' :: (D ++ ('T' :: (H ++ (':' :: (MI ++ (':' :: (S ++ rest))))))))))
    from by simp]
  rw [show readDigits 4 (Y ++ ('-' :: (MO ++ ('-' :: (D ++ ('T' :: (H ++ (':' :: (MI ++ (':' :: (S ++ rest)))))))))))
      = some (digitsVal Y, '-' :: (MO ++ ('-' :: (D ++ ('T' :: (H ++ (':' :: (MI ++ (':' :: (S ++ rest))))))))))
    from by rw [← hY]; exact readDigits_spec Y _ dY]
  simp only [Option.bind_eq_bind, Option.some_bind]
  rw [show expectChar '-' ('-' :: (MO ++ ('-' :: (D ++ ('T' :: (H ++ (':' :: (MI ++ (':' :: (S ++ rest))))))))))
      = some (MO ++ ('-' :: (D ++ ('T' :: (H ++ (':' :: (MI ++ (':' :: (S ++ rest))))))))) from rfl]
  simp only [Option.some_bind]
  rw [show readDigits 2 (MO ++ ('-' :: (D ++ ('T' :: (H ++ (':' :: (MI ++ (':' :: (S ++ rest)))))))))
      = some (digitsVal MO, '-' :: (D ++ ('T' :: (H ++ (':' :: (MI ++ (':' :: (S ++ rest))))))))
    from by rw [← hMO]; exact readDigits_spec MO _ dMO]
  simp only [Option.some_bind]
  rw [show expectChar '-' ('-' :: (D ++ ('T' :: (H ++ (':' :: (MI ++ (':' :: (S ++ rest))))))))
      = some (D ++ ('T' :: (H ++ (':' :: (MI ++ (':' :: (S ++ rest))))))) from rfl]
  simp only [Option.some_bind]
  rw [show readDigits 2 (D ++ ('T' :: (H ++ (':' :: (MI ++ (':' :: (S ++ rest)))))))
      = some (digitsVal D, 'T' :: (H ++ (':' :: (MI ++ (':' :: (S ++ rest))))))
    from by rw [← hD]; exact readDigits_spec D _ dD]
  simp only [Option.some_bind]
  rw [show expectChar 'T' ('T' :: (H ++ (':' :: (MI ++ (':' :: (S ++ rest))))))
      = some (H ++ (':' :: (MI ++ (':' :: (S ++ rest))))) from rfl]
  simp only [Option.some_bind]
  rw [show readDigits 2 (H ++ (':' :: (MI ++ (':' :: (S ++ rest)))))
      = some (digitsVal H, ':' :: (MI ++ (':' :: (S ++ rest))))
    from by rw [← hH]; exact readDigits_spec H _ dH]
  simp only [Option.some_bind]
  rw [show expectChar ':' (':' :: (MI ++ (':' :: (S ++ rest))))
      = some (MI ++ (':' :: (S ++ rest))) from rfl]
  simp only [Option.some_bind]
  rw [show readDigits 2 (MI ++ (':' :: (S ++ rest)))
      = some (digitsVal MI, ':' :: (S ++ rest))
    from by rw [← hMI]; exact readDigits_spec MI _ dMI]
  simp only [Option.some_bind]
  rw [show expectChar ':' (':' :: (S ++ rest)) = some (S ++ rest) from rfl]
  simp only [Option.some_bind]
  rw [show readDigits 2 (S ++ rest) = some (digitsVal S, rest)
    from by rw [← hS]; exact readDigits_spec S rest dS]
  simp only [Option.some_bind]


theorem getD_table_le : ∀ i : Nat,
    (([31, 28, 31, 30, 31, 30, 31, 31, 30, 31, 30, 31] : List Int).getD i 0) ≤ 31 := by
  intro i
  match i with
  | 0 | 1 | 2 | 3 | 4 | 5 | 6 | 7 | 8 | 9 | 10 | 11 => decide
  | n + 12 => simp [List.getD]

theorem ldim_le_31 (y mo : Int) : last_day_in_month y mo ≤ 31 := by
  unfold last_day_in_month
  split_ifs with h
  · exact getD_table_le _
  · norm_num


theorem parse_format_nosub (Y MO D H MI S : List Char) (t : GPSTime)
    (hY : Y.length = 4) (hMO : MO.length = 2) (hD : D.length = 2)
    (hH : H.length = 2) (hMI : MI.length = 2) (hS : S.length = 2)
    (dY : ∀ c ∈ Y, c.isDigit = true) (dMO : ∀ c ∈ MO, c.isDigit = true)
    (dD : ∀ c ∈ D, c.isDigit = true) (dH : ∀ c ∈ H, c.isDigit = true)
    (dMI : ∀ c ∈ MI, c.isDigit = true) (dS : ∀ c ∈ S, c.isDigit = true)
    (hstr : (GPSTime.toString t).toList
      = Y ++ ['-'] ++ MO ++ ['-'] ++ D ++ ['T'] ++ H ++ [':'] ++ MI ++ [':'] ++ S) :
    GPSTime.parseChars ((GPSTime.toString t).toList)
      = some (digitsVal Y, digitsVal MO, digitsVal D, digitsVal H, digitsVal MI,
          digitsVal S, []) := by
  rw [hstr]
  rw [show Y ++ ['-'] ++ MO ++ ['-'] ++ D ++ ['T'] ++ H ++ [':'] ++ MI ++ [':'] ++ S
      = Y ++ ['-'] ++ MO ++ ['-'] ++ D ++ ['T'] ++ H ++ [':'] ++ MI ++ [':'] ++ S
        ++ ([] : List Char) from (List.append_nil _).symm]
  rw [parseChars_shape Y MO D H MI S [] hY hMO hD hH hMI hS dY dMO dD dH dMI dS]

theorem parse_format_sub (Y MO D H MI S ds : List Char) (t : GPSTime)
    (hY : Y.length = 4) (hMO : MO.length = 2) (hD : D.length = 2)
    (hH : H.length = 2) (hMI : MI.length = 2) (hS : S.length = 2)
    (dY : ∀ c ∈ Y, c.isDigit = true) (dMO : ∀ c ∈ MO, c.isDigit = true)
    (dD : ∀ c ∈ D, c.isDigit = true) (dH : ∀ c ∈ H, c.isDigit = true)
    (dMI : ∀ c ∈ MI, c.isDigit = true) (dS : ∀ c ∈ S, c.isDigit = true)
    (hds1 : 1 ≤ ds.length) (hds2 : ds.length ≤ 12)
    (dds : ∀ c ∈ ds, c.isDigit = true)
    (hstr : (GPSTime.toString t).toList
      = Y ++ ['-'] ++ MO ++ ['-'] ++ D ++ ['T'] ++ H ++ [':'] ++ MI ++ [':'] ++ S
        ++ ('.' :: ds)) :
    GPSTime.parseChars ((GPSTime.toString t).toList)
      = some (digitsVal Y, digitsVal MO, digitsVal D, digitsVal H, digitsVal MI,
          digitsVal S, ds) := by
  rw [hstr, parseChars_shape Y MO D H MI S ('.' :: ds) hY hMO hD hH hMI hS dY dMO dD dH dMI dS]
  show (if 1 ≤ ds.length ∧ ds.length ≤ 12 ∧ ds.all Char.isDigit then
      some (digitsVal Y, digitsVal MO, digitsVal D, digitsVal H, digitsVal MI,
        digitsVal S, ds)
    else none)
    = some (digitsVal Y, digitsVal MO, digitsVal D, digitsVal H, digitsVal MI,
        digitsVal S, ds)
  rw [if_pos (show 1 ≤ ds.length ∧ ds.length ≤ 12 ∧ ds.all Char.isDigit = true from
    ⟨hds1, hds2, List.all_eq_true.mpr dds⟩)]

/-- C4 (code bug): for every GPSTime in the valid tick range, the canonical
formatted string matches the v1 datetime pattern, so the v1 string
constructor does not take its only defined path, the pattern-failure
rejection; it instead goes on to read the match_results object that
`regex_match` (called without the out-argument) never populated, leaving
the program without a defined parse result (`none` in the model): the
claimed round trip does not hold of the source.  The extraction the code
attempts, `GPSTime.fromStringIntended`, would round-trip exactly. -/
theorem C4_string_round_trip_bug (t : GPSTime)
    (hlo : GPSTime.minValue.timePoint ≤ t.timePoint)
    (hhi : t.timePoint ≤ GPSTime.maxValue.timePoint) :
    GPSTime.fromString (GPSTime.toString t) = none ∧
    GPSTime.fromStringIntended (GPSTime.toString t) = .ok t := by
  obtain ⟨hy1, hy2, hm1, hm2, hdd1, hdd2, hh1, hh2, hmi1, hmi2, hs1, hs2, hus1, hus2,
    hps1, hps2, htick⟩ := reverse_components t hlo hhi
  have hd31 : t.day ≤ 31 := le_trans hdd2 (ldim_le_31 t.year t.month)
  obtain ⟨nYd, nYv, nYne, nYl⟩ := natDigits_spec t.year.toNat
  obtain ⟨YL, YD, YV⟩ := zeroPad_spec 4 (natDigits t.year.toNat) nYd
    (nYl 4 (by norm_num) (by omega))
  obtain ⟨nMOd, nMOv, nMOne, nMOl⟩ := natDigits_spec t.month.toNat
  obtain ⟨MOL, MOD, MOV⟩ := zeroPad_spec 2 (natDigits t.month.toNat) nMOd
    (nMOl 2 (by norm_num) (by omega))
  obtain ⟨nDd, nDv, nDne, nDl⟩ := natDigits_spec t.day.toNat
  obtain ⟨DL, DD, DV⟩ := zeroPad_spec 2 (natDigits t.day.toNat) nDd
    (nDl 2 (by norm_num) (by omega))
  obtain ⟨nHd, nHv, nHne, nHl⟩ := natDigits_spec t.hour.toNat
  obtain ⟨HL, HD, HV⟩ := zeroPad_spec 2 (natDigits t.hour.toNat) nHd
    (nHl 2 (by norm_num) (by omega))
  obtain ⟨nMId, nMIv, nMIne, nMIl⟩ := natDigits_spec t.minute.toNat
  obtain ⟨MIL, MID, MIV⟩ := zeroPad_spec 2 (natDigits t.minute.toNat) nMId
    (nMIl 2 (by norm_num) (by omega))
  obtain ⟨nSd, nSv, nSne, nSl⟩ := natDigits_spec t.second.toNat
  obtain ⟨SL, SD, SV⟩ := zeroPad_spec 2 (natDigits t.second.toNat) nSd
    (nSl 2 (by norm_num) (by omega))
  have vY : (↑(digitsVal (zeroPad 4 (natDigits t.year.toNat))) : Int) = t.year := by
    rw [YV, nYv]; exact Int.toNat_of_nonneg (by omega)
  have vMO : (↑(digitsVal (zeroPad 2 (natDigits t.month.toNat))) : Int) = t.month := by
    rw [MOV, nMOv]; exact Int.toNat_of_nonneg (by omega)
  have vD : (↑(digitsVal (zeroPad 2 (natDigits t.day.toNat))) : Int) = t.day := by
    rw [DV, nDv]; exact Int.toNat_of_nonneg (by omega)
  have vH : (↑(digitsVal (zeroPad 2 (natDigits t.hour.toNat))) : Int) = t.hour := by
    rw [HV, nHv]; exact Int.toNat_of_nonneg (by omega)
  have vMI : (↑(digitsVal (zeroPad 2 (natDigits t.minute.toNat))) : Int) = t.minute := by
    rw [MIV, nMIv]; exact Int.toNat_of_nonneg (by omega)
  have vS : (↑(digitsVal (zeroPad 2 (natDigits t.second.toNat))) : Int) = t.second := by
    rw [SV, nSv]; exact Int.toNat_of_nonneg (by omega)
  by_cases hz : t.microsecond = 0 ∧ t.picosecond = 0
  · have hstr : (GPSTime.toString t).toList
        = zeroPad 4 (natDigits t.year.toNat) ++ ['-'] ++ zeroPad 2 (natDigits t.month.toNat) ++ ['-'] ++ zeroPad 2 (natDigits t.day.toNat) ++ ['T'] ++ zeroPad 2 (natDigits t.hour.toNat) ++ [':'] ++ zeroPad 2 (natDigits t.minute.toNat) ++ [':'] ++ zeroPad 2 (natDigits t.second.toNat) := by
      show (if t.microsecond = 0 ∧ t.picosecond = 0 then
          zeroPad 4 (natDigits t.year.toNat) ++ ['-'] ++ zeroPad 2 (natDigits t.month.toNat) ++ ['-'] ++ zeroPad 2 (natDigits t.day.toNat) ++ ['T'] ++ zeroPad 2 (natDigits t.hour.toNat) ++ [':'] ++ zeroPad 2 (natDigits t.minute.toNat) ++ [':'] ++ zeroPad 2 (natDigits t.second.toNat)
        else
          zeroPad 4 (natDigits t.year.toNat) ++ ['-'] ++ zeroPad 2 (natDigits t.month.toNat) ++ ['-'] ++ zeroPad 2 (natDigits t.day.toNat) ++ ['T'] ++ zeroPad 2 (natDigits t.hour.toNat) ++ [':'] ++ zeroPad 2 (natDigits t.minute.toNat) ++ [':'] ++ zeroPad 2 (natDigits t.second.toNat) ++ ['.'] ++ trimTrailingZeros (zeroPad 6 (natDigits t.microsecond.toNat) ++ zeroPad 6 (natDigits t.picosecond.toNat)))
        = zeroPad 4 (natDigits t.year.toNat) ++ ['-'] ++ zeroPad 2 (natDigits t.month.toNat) ++ ['-'] ++ zeroPad 2 (natDigits t.day.toNat) ++ ['T'] ++ zeroPad 2 (natDigits t.hour.toNat) ++ [':'] ++ zeroPad 2 (natDigits t.minute.toNat) ++ [':'] ++ zeroPad 2 (natDigits t.second.toNat)
      rw [if_pos hz]
    have hparse := parse_format_nosub (zeroPad 4 (natDigits t.year.toNat))
      (zeroPad 2 (natDigits t.month.toNat)) (zeroPad 2 (natDigits t.day.toNat))
      (zeroPad 2 (natDigits t.hour.toNat)) (zeroPad 2 (natDigits t.minute.toNat))
      (zeroPad 2 (natDigits t.second.toNat)) t YL MOL DL HL MIL SL YD MOD DD HD MID SD hstr
    constructor
    · unfold GPSTime.fromString
      rw [hparse]
    · unfold GPSTime.fromStringIntended
      rw [hparse]
      show GPSTime.fromComponents (↑(digitsVal (zeroPad 4 (natDigits t.year.toNat))))
          (↑(digitsVal (zeroPad 2 (natDigits t.month.toNat))))
          (↑(digitsVal (zeroPad 2 (natDigits t.day.toNat))))
          (↑(digitsVal (zeroPad 2 (natDigits t.hour.toNat))))
          (↑(digitsVal (zeroPad 2 (natDigits t.minute.toNat))))
          (↑(digitsVal (zeroPad 2 (natDigits t.second.toNat)))) 0 0 = .ok t
      rw [vY, vMO, vD, vH, vMI, vS]
      rw [fromComponents_ok t.year t.month t.day t.hour t.minute t.second 0 0
        hy1 hy2 hm1 hm2 hdd1 hdd2 hh1 hh2 hmi1 hmi2 hs1 hs2 (by norm_num) (by norm_num)
        (by norm_num) (by norm_num)]
      rw [hz.1, hz.2] at htick
      rw [htick]
  · obtain ⟨nUSd, nUSv, nUSne, nUSl⟩ := natDigits_spec t.microsecond.toNat
    obtain ⟨USL, USD, USV⟩ := zeroPad_spec 6 (natDigits t.microsecond.toNat) nUSd
      (nUSl 6 (by norm_num) (by omega))
    obtain ⟨nPSd, nPSv, nPSne, nPSl⟩ := natDigits_spec t.picosecond.toNat
    obtain ⟨PSL, PSD, PSV⟩ := zeroPad_spec 6 (natDigits t.picosecond.toNat) nPSd
      (nPSl 6 (by norm_num) (by omega))
    obtain ⟨k, hk⟩ := trimTrailingZeros_spec (zeroPad 6 (natDigits t.microsecond.toNat) ++ zeroPad 6 (natDigits t.picosecond.toNat))
    have hP12len : (zeroPad 6 (natDigits t.microsecond.toNat) ++ zeroPad 6 (natDigits t.picosecond.toNat)).length = 12 := by
      rw [List.length_append, USL, PSL]
    have hlen : (trimTrailingZeros (zeroPad 6 (natDigits t.microsecond.toNat) ++ zeroPad 6 (natDigits t.picosecond.toNat))).length + k = 12 := by
      have := congrArg List.length hk
      rw [List.length_append, List.length_replicate, hP12len] at this
      exact this
    have hpadded : trimTrailingZeros (zeroPad 6 (natDigits t.microsecond.toNat) ++ zeroPad 6 (natDigits t.picosecond.toNat))
        ++ List.replicate (12 - (trimTrailingZeros (zeroPad 6 (natDigits t.microsecond.toNat) ++ zeroPad 6 (natDigits t.picosecond.toNat))).length) '0'
        = zeroPad 6 (natDigits t.microsecond.toNat) ++ zeroPad 6 (natDigits t.picosecond.toNat) := by
      rw [show 12 - (trimTrailingZeros (zeroPad 6 (natDigits t.microsecond.toNat) ++ zeroPad 6 (natDigits t.picosecond.toNat))).length = k from by omega]
      exact hk
    have hP12val : digitsVal (zeroPad 6 (natDigits t.microsecond.toNat) ++ zeroPad 6 (natDigits t.picosecond.toNat))
        = t.microsecond.toNat * 10 ^ 6 + t.picosecond.toNat := by
      rw [digitsVal_append, USV, nUSv, PSV, nPSv, PSL]
    have hne : 1 ≤ (trimTrailingZeros (zeroPad 6 (natDigits t.microsecond.toNat) ++ zeroPad 6 (natDigits t.picosecond.toNat))).length := by
      by_contra hc
      push_neg at hc
      have hds0 : trimTrailingZeros (zeroPad 6 (natDigits t.microsecond.toNat) ++ zeroPad 6 (natDigits t.picosecond.toNat)) = [] :=
        List.eq_nil_of_length_eq_zero (by omega)
      rw [hds0, List.nil_append] at hk
      have hzv : digitsVal (zeroPad 6 (natDigits t.microsecond.toNat) ++ zeroPad 6 (natDigits t.picosecond.toNat)) = 0 := by
        rw [← hk]; exact digitsVal_replicate_zero k
      rw [hP12val] at hzv
      rw [show (10:Nat) ^ 6 = 1000000 from by norm_num] at hzv
      rcases not_and_or.mp hz with h | h
      · omega
      · omega
    have hds12 : (trimTrailingZeros (zeroPad 6 (natDigits t.microsecond.toNat) ++ zeroPad 6 (natDigits t.picosecond.toNat))).length ≤ 12 := by omega
    have dds : ∀ c ∈ trimTrailingZeros (zeroPad 6 (natDigits t.microsecond.toNat) ++ zeroPad 6 (natDigits t.picosecond.toNat)), c.isDigit = true := by
      intro c hc
      have hmem : c ∈ (zeroPad 6 (natDigits t.microsecond.toNat) ++ zeroPad 6 (natDigits t.picosecond.toNat)) := by
        rw [← hk]; exact List.mem_append_left _ hc
      rcases List.mem_append.mp hmem with h | h
      · exact USD c h
      · exact PSD c h
    have hstr : (GPSTime.toString t).toList
        = zeroPad 4 (natDigits t.year.toNat) ++ ['-'] ++ zeroPad 2 (natDigits t.month.toNat) ++ ['-'] ++ zeroPad 2 (natDigits t.day.toNat) ++ ['T'] ++ zeroPad 2 (natDigits t.hour.toNat) ++ [':'] ++ zeroPad 2 (natDigits t.minute.toNat) ++ [':'] ++ zeroPad 2 (natDigits t.second.toNat) ++ ('.' :: trimTrailingZeros (zeroPad 6 (natDigits t.microsecond.toNat) ++ zeroPad 6 (natDigits t.picosecond.toNat))) := by
      show (if t.microsecond = 0 ∧ t.picosecond = 0 then
          zeroPad 4 (natDigits t.year.toNat) ++ ['-'] ++ zeroPad 2 (natDigits t.month.toNat) ++ ['-'] ++ zeroPad 2 (natDigits t.day.toNat) ++ ['T'] ++ zeroPad 2 (natDigits t.hour.toNat) ++ [':'] ++ zeroPad 2 (natDigits t.minute.toNat) ++ [':'] ++ zeroPad 2 (natDigits t.second.toNat)
        else
          zeroPad 4 (natDigits t.year.toNat) ++ ['-'] ++ zeroPad 2 (natDigits t.month.toNat) ++ ['-'] ++ zeroPad 2 (natDigits t.day.toNat) ++ ['T'] ++ zeroPad 2 (natDigits t.hour.toNat) ++ [':'] ++ zeroPad 2 (natDigits t.minute.toNat) ++ [':'] ++ zeroPad 2 (natDigits t.second.toNat) ++ ['.'] ++ trimTrailingZeros (zeroPad 6 (natDigits t.microsecond.toNat) ++ zeroPad 6 (natDigits t.picosecond.toNat)))
        = zeroPad 4 (natDigits t.year.toNat) ++ ['-'] ++ zeroPad 2 (natDigits t.month.toNat) ++ ['-'] ++ zeroPad 2 (natDigits t.day.toNat) ++ ['T'] ++ zeroPad 2 (natDigits t.hour.toNat) ++ [':'] ++ zeroPad 2 (natDigits t.minute.toNat) ++ [':'] ++ zeroPad 2 (natDigits t.second.toNat) ++ ('.' :: trimTrailingZeros (zeroPad 6 (natDigits t.microsecond.toNat) ++ zeroPad 6 (natDigits t.picosecond.toNat)))
      rw [if_neg hz]
      simp [List.append_assoc]
    have hparse := parse_format_sub (zeroPad 4 (natDigits t.year.toNat))
      (zeroPad 2 (natDigits t.month.toNat)) (zeroPad 2 (natDigits t.day.toNat))
      (zeroPad 2 (natDigits t.hour.toNat)) (zeroPad 2 (natDigits t.minute.toNat))
      (zeroPad 2 (natDigits t.second.toNat))
      (trimTrailingZeros (zeroPad 6 (natDigits t.microsecond.toNat) ++ zeroPad 6 (natDigits t.picosecond.toNat))) t
      YL MOL DL HL MIL SL YD MOD DD HD MID SD hne hds12 dds hstr
    constructor
    · unfold GPSTime.fromString
      rw [hparse]
    · unfold GPSTime.fromStringIntended
      rw [hparse]
      show GPSTime.fromComponents (↑(digitsVal (zeroPad 4 (natDigits t.year.toNat))))
          (↑(digitsVal (zeroPad 2 (natDigits t.month.toNat))))
          (↑(digitsVal (zeroPad 2 (natDigits t.day.toNat))))
          (↑(digitsVal (zeroPad 2 (natDigits t.hour.toNat))))
          (↑(digitsVal (zeroPad 2 (natDigits t.minute.toNat))))
          (↑(digitsVal (zeroPad 2 (natDigits t.second.toNat))))
          (↑(digitsVal ((trimTrailingZeros (zeroPad 6 (natDigits t.microsecond.toNat) ++ zeroPad 6 (natDigits t.picosecond.toNat))
            ++ List.replicate (12 - (trimTrailingZeros (zeroPad 6 (natDigits t.microsecond.toNat) ++ zeroPad 6 (natDigits t.picosecond.toNat))).length) '0').take 6)))
          (↑(digitsVal ((trimTrailingZeros (zeroPad 6 (natDigits t.microsecond.toNat) ++ zeroPad 6 (natDigits t.picosecond.toNat))
            ++ List.replicate (12 - (trimTrailingZeros (zeroPad 6 (natDigits t.microsecond.toNat) ++ zeroPad 6 (natDigits t.picosecond.toNat))).length) '0').drop 6)))
          = .ok t
      rw [hpadded]
      have htake : (zeroPad 6 (natDigits t.microsecond.toNat) ++ zeroPad 6 (natDigits t.picosecond.toNat)).take 6 = zeroPad 6 (natDigits t.microsecond.toNat) := by
        have h := List.take_left (zeroPad 6 (natDigits t.microsecond.toNat))
          (zeroPad 6 (natDigits t.picosecond.toNat))
        rw [USL] at h
        exact h
      have hdrop : (zeroPad 6 (natDigits t.microsecond.toNat) ++ zeroPad 6 (natDigits t.picosecond.toNat)).drop 6 = zeroPad 6 (natDigits t.picosecond.toNat) := by
        have h := List.drop_left (zeroPad 6 (natDigits t.microsecond.toNat))
          (zeroPad 6 (natDigits t.picosecond.toNat))
        rw [USL] at h
        exact h
      rw [htake, hdrop, vY, vMO, vD, vH, vMI, vS]
      rw [USV, nUSv, PSV, nPSv]
      rw [Int.toNat_of_nonneg hus1, Int.toNat_of_nonneg hps1]
      rw [fromComponents_ok t.year t.month t.day t.hour t.minute t.second t.microsecond
        t.picosecond hy1 hy2 hm1 hm2 hdd1 hdd2 hh1 hh2 hmi1 hmi2 hs1 hs2 hus1 hus2
        hps1 hps2]
      rw [htick]

/-- Witness for C4 at the GPS epoch instant (tick count 0,
1980-01-06T00:00:00). -/
theorem C4_string_round_trip_bug_witness :
    GPSTime.fromString (GPSTime.toString ⟨0⟩) = none ∧
    GPSTime.fromStringIntended (GPSTime.toString ⟨0⟩) = .ok ⟨0⟩ :=
  C4_string_round_trip_bug ⟨0⟩ (by decide) (by decide)

set_option maxRecDepth 4000 in
theorem yearStartDoe_step : ∀ k < 399, yearStartDoe k + eraYearLen k = yearStartDoe (k + 1) := by decide

theorem yearStartDoe_last : yearStartDoe 399 + eraYearLen 399 = 146097 := by decide

set_option maxRecDepth 4000 in
theorem eraYearLen_ge : ∀ k < 400, 365 ≤ eraYearLen k := by decide

theorem eraStart_step : ∀ ys : Nat, ys / 400 * 146097 + yearStartDoe (ys % 400) + eraYearLen (ys % 400)
    = (ys + 1) / 400 * 146097 + yearStartDoe ((ys + 1) % 400) := by
  intro ys
  rcases lt_or_ge (ys % 400) 399 with h | h
  · have e1 : (ys + 1) % 400 = ys % 400 + 1 := by omega
    have e2 : (ys + 1) / 400 = ys / 400 := by omega
    rw [e1, e2]
    have := yearStartDoe_step (ys % 400) h
    omega
  · have h399 : ys % 400 = 399 := by omega
    have e1 : (ys + 1) % 400 = 0 := by omega
    have e2 : (ys + 1) / 400 = ys / 400 + 1 := by omega
    rw [e1, e2, h399]
    have h0 : yearStartDoe 0 = 0 := by decide
    have := yearStartDoe_last
    omega

theorem eraStart_mono : ∀ n ys : Nat, ys / 400 * 146097 + yearStartDoe (ys % 400)
    ≤ (ys + n) / 400 * 146097 + yearStartDoe ((ys + n) % 400) := by
  intro n
  induction n with
  | zero => intro ys; simp
  | succ k ih =>
    intro ys
    have h1 := ih ys
    have h2 := eraStart_step (ys + k)
    have h3 := eraYearLen_ge ((ys + k) % 400) (Nat.mod_lt _ (by norm_num))
    have he : ys + (k + 1) = (ys + k) + 1 := by omega
    rw [he]
    omega

set_option maxRecDepth 4000 in
theorem doy_le_365 : ∀ c < 384, c % 32 < shiftedMonthLen (c / 32) →
    monthStartDoy (c / 32) + c % 32 ≤ 365 := by decide

set_option maxRecDepth 4000 in
theorem doy_le_364 : ∀ c < 384, (c % 32 < shiftedMonthLen (c / 32) ∧ ¬(c / 32 = 11 ∧ c % 32 = 28)) →
    monthStartDoy (c / 32) + c % 32 ≤ 364 := by decide

set_option maxRecDepth 4000 in
theorem monthStartDoy_gap : ∀ c < 144, c % 12 < c / 12 →
    monthStartDoy (c % 12) + shiftedMonthLen (c % 12) ≤ monthStartDoy (c / 12) := by decide

theorem dfcN_mono (ys1 mp1 d01 ys2 mp2 d02 : Nat)
    (h1 : mp1 < 12) (h2 : d01 < shiftedMonthLen mp1)
    (h3 : mp2 < 12) (h4 : d02 < shiftedMonthLen mp2)
    (hleap : mp1 = 11 → d01 = 28 → eraYearLen (ys1 % 400) = 366)
    (hlex : ys1 < ys2 ∨ (ys1 = ys2 ∧ (mp1 < mp2 ∨ (mp1 = mp2 ∧ d01 < d02)))) :
    daysFromCivilN ys1 mp1 d01 < daysFromCivilN ys2 mp2 d02 := by
  have hs1 := shiftedMonthLen_le mp1
  have hs2 := shiftedMonthLen_le mp2
  unfold daysFromCivilN
  rcases hlex with hys | ⟨rfl, hm⟩
  · -- year strictly increases
    have hdoy : monthStartDoy mp1 + d01 ≤ eraYearLen (ys1 % 400) - 1 := by
      by_cases hfeb : mp1 = 11 ∧ d01 = 28
      · have h366 := hleap hfeb.1 hfeb.2
        have h365 := doy_le_365 (mp1 * 32 + d01) (by omega)
          (by rw [show (mp1 * 32 + d01) % 32 = d01 from by omega,
                  show (mp1 * 32 + d01) / 32 = mp1 from by omega]; exact h2)
        rw [show (mp1 * 32 + d01) % 32 = d01 from by omega,
            show (mp1 * 32 + d01) / 32 = mp1 from by omega] at h365
        omega
      · have h364 := doy_le_364 (mp1 * 32 + d01) (by omega)
          (by rw [show (mp1 * 32 + d01) % 32 = d01 from by omega,
                  show (mp1 * 32 + d01) / 32 = mp1 from by omega]; exact ⟨h2, hfeb⟩)
        rw [show (mp1 * 32 + d01) % 32 = d01 from by omega,
            show (mp1 * 32 + d01) / 32 = mp1 from by omega] at h364
        have := eraYearLen_ge (ys1 % 400) (Nat.mod_lt _ (by norm_num))
        omega
    have hstep := eraStart_step ys1
    have hmono := eraStart_mono (ys2 - (ys1 + 1)) (ys1 + 1)
    rw [show ys1 + 1 + (ys2 - (ys1 + 1)) = ys2 from by omega] at hmono
    have hge := eraYearLen_ge (ys1 % 400) (Nat.mod_lt _ (by norm_num))
    omega
  · rcases hm with hmp | ⟨rfl, hd⟩
    · -- same shifted year, month strictly increases
      have h6 := monthStartDoy_gap (mp2 * 12 + mp1) (by omega)
        (by rw [show (mp2 * 12 + mp1) % 12 = mp1 from by omega,
                show (mp2 * 12 + mp1) / 12 = mp2 from by omega]; exact hmp)
      rw [show (mp2 * 12 + mp1) % 12 = mp1 from by omega,
          show (mp2 * 12 + mp1) / 12 = mp2 from by omega] at h6
      omega
    · omega


set_option maxHeartbeats 2000000 in
theorem dfc_lex_mono (y1 m1 d1 y2 m2 d2 : Int)
    (hy1 : 1 ≤ y1) (hy1b : y1 ≤ 9999) (hm1 : 1 ≤ m1) (hm1b : m1 ≤ 12)
    (hd1 : 1 ≤ d1) (hd1b : d1 ≤ last_day_in_month y1 m1)
    (hy2 : 1 ≤ y2) (hy2b : y2 ≤ 9999) (hm2 : 1 ≤ m2) (hm2b : m2 ≤ 12)
    (hd2 : 1 ≤ d2) (hd2b : d2 ≤ last_day_in_month y2 m2)
    (hlex : y1 < y2 ∨ (y1 = y2 ∧ (m1 < m2 ∨ (m1 = m2 ∧ d1 < d2)))) :
    days_from_civil y1 m1 d1 < days_from_civil y2 m2 d2 := by
  obtain ⟨hs1a, hs1b, hs1c, hs1d⟩ := valid_to_shifted y1 m1 d1 hy1 hy1b hm1 hm1b hd1 hd1b
  obtain ⟨hs2a, hs2b, hs2c, hs2d⟩ := valid_to_shifted y2 m2 d2 hy2 hy2b hm2 hm2b hd2 hd2b
  rw [dfc_bridge y1 m1 d1 hy1 hy1b hm1 hm1b, dfc_bridge y2 m2 d2 hy2 hy2b hm2 hm2b]
  have hlexN : (y1 - (if m1 ≤ 2 then 1 else 0)).toNat < (y2 - (if m2 ≤ 2 then 1 else 0)).toNat
      ∨ ((y1 - (if m1 ≤ 2 then 1 else 0)).toNat = (y2 - (if m2 ≤ 2 then 1 else 0)).toNat ∧
        ((if 2 < m1 then m1 - 3 else m1 + 9).toNat < (if 2 < m2 then m2 - 3 else m2 + 9).toNat
          ∨ ((if 2 < m1 then m1 - 3 else m1 + 9).toNat
                = (if 2 < m2 then m2 - 3 else m2 + 9).toNat ∧
              (d1 - 1).toNat < (d2 - 1).toNat))) := by
    rcases le_or_lt m1 2 with hc1 | hc1 <;> rcases le_or_lt m2 2 with hc2 | hc2
    · rw [if_pos hc1, if_pos hc2, if_neg (not_lt.mpr hc1), if_neg (not_lt.mpr hc2)]
      omega
    · rw [if_pos hc1, if_neg (not_le.mpr hc2), if_neg (not_lt.mpr hc1), if_pos hc2]
      omega
    · rw [if_neg (not_le.mpr hc1), if_pos hc2, if_pos hc1, if_neg (not_lt.mpr hc2)]
      omega
    · rw [if_neg (not_le.mpr hc1), if_neg (not_le.mpr hc2), if_pos hc1, if_pos hc2]
      omega
  have key := dfcN_mono ((y1 - (if m1 ≤ 2 then 1 else 0)).toNat)
    ((if 2 < m1 then m1 - 3 else m1 + 9).toNat) ((d1 - 1).toNat)
    ((y2 - (if m2 ≤ 2 then 1 else 0)).toNat)
    ((if 2 < m2 then m2 - 3 else m2 + 9).toNat) ((d2 - 1).toNat)
    hs1b hs1c hs2b hs2c (fun ha hb => hs1d ⟨ha, hb⟩) hlexN
  have hadd1 : daysFromCivilN ((y1 - (if m1 ≤ 2 then 1 else 0)).toNat)
      ((if 2 < m1 then m1 - 3 else m1 + 9).toNat) ((d1 - 1).toNat)
      = daysFromCivilN ((y1 - (if m1 ≤ 2 then 1 else 0)).toNat)
        ((if 2 < m1 then m1 - 3 else m1 + 9).toNat) 0 + (d1 - 1).toNat := by
    unfold daysFromCivilN
    omega
  have hadd2 : daysFromCivilN ((y2 - (if m2 ≤ 2 then 1 else 0)).toNat)
      ((if 2 < m2 then m2 - 3 else m2 + 9).toNat) ((d2 - 1).toNat)
      = daysFromCivilN ((y2 - (if m2 ≤ 2 then 1 else 0)).toNat)
        ((if 2 < m2 then m2 - 3 else m2 + 9).toNat) 0 + (d2 - 1).toNat := by
    unfold daysFromCivilN
    omega
  omega


set_option maxHeartbeats 2000000 in
theorem gps_lex_mono (y1 m1 d1 h1 mi1 s1 us1 ps1 y2 m2 d2 h2 mi2 s2 us2 ps2 : Int)
    (hy1 : 1 ≤ y1) (hy1b : y1 ≤ 9999) (hm1 : 1 ≤ m1) (hm1b : m1 ≤ 12)
    (hd1 : 1 ≤ d1) (hd1b : d1 ≤ last_day_in_month y1 m1)
    (hh1 : 0 ≤ h1) (hh1b : h1 < 24) (hmi1 : 0 ≤ mi1) (hmi1b : mi1 < 60)
    (hs1 : 0 ≤ s1) (hs1b : s1 < 60) (hus1 : 0 ≤ us1) (hus1b : us1 < 1000000)
    (hps1 : 0 ≤ ps1) (hps1b : ps1 < 1000000)
    (hy2 : 1 ≤ y2) (hy2b : y2 ≤ 9999) (hm2 : 1 ≤ m2) (hm2b : m2 ≤ 12)
    (hd2 : 1 ≤ d2) (hd2b : d2 ≤ last_day_in_month y2 m2)
    (hh2 : 0 ≤ h2) (hh2b : h2 < 24) (hmi2 : 0 ≤ mi2) (hmi2b : mi2 < 60)
    (hs2 : 0 ≤ s2) (hs2b : s2 < 60) (hus2 : 0 ≤ us2) (hus2b : us2 < 1000000)
    (hps2 : 0 ≤ ps2) (hps2b : ps2 < 1000000)
    (hlex : lexLt8 (y1, m1, d1, h1, mi1, s1, us1, ps1) (y2, m2, d2, h2, mi2, s2, us2, ps2)) :
    gpsTicksOf y1 m1 d1 h1 mi1 s1 us1 ps1 < gpsTicksOf y2 m2 d2 h2 mi2 s2 us2 ps2 := by
  simp only [lexLt8] at hlex
  have hdc : (y1 < y2 ∨ (y1 = y2 ∧ (m1 < m2 ∨ (m1 = m2 ∧ d1 < d2)))) →
      gpsTicksOf y1 m1 d1 h1 mi1 s1 us1 ps1 < gpsTicksOf y2 m2 d2 h2 mi2 s2 us2 ps2 := by
    intro hdl
    have hlt := dfc_lex_mono y1 m1 d1 y2 m2 d2 hy1 hy1b hm1 hm1b hd1 hd1b
      hy2 hy2b hm2 hm2b hd2 hd2b hdl
    unfold gpsTicksOf
    simp only [gpsEpochDays, psPerDay, psPerHour, psPerMinute, psPerSecond, psPerMicrosecond]
    norm_num
    omega
  rcases hlex with hy | ⟨hyeq, hlex2⟩
  · exact hdc (Or.inl hy)
  · rcases hlex2 with hm | ⟨hmeq, hlex3⟩
    · exact hdc (Or.inr ⟨hyeq, Or.inl hm⟩)
    · rcases hlex3 with hd | ⟨hdeq, hlex4⟩
      · exact hdc (Or.inr ⟨hyeq, Or.inr ⟨hmeq, hd⟩⟩)
      · subst hyeq
        subst hmeq
        subst hdeq
        unfold gpsTicksOf
        simp only [gpsEpochDays, psPerDay, psPerHour, psPerMinute, psPerSecond, psPerMicrosecond]
        norm_num
        omega



set_option maxHeartbeats 1000000 in
/-- C8: for every pair of GPSTime values in the valid tick range whose tick
counts satisfy t1 < t2, the broken-down component tuple of t1 is
lexicographically less than that of t2: linear tick order agrees with
lexicographic component order. -/
theorem C8_tick_lex_monotone (t1 t2 : GPSTime)
    (h1lo : GPSTime.minValue.timePoint ≤ t1.timePoint)
    (h1hi : t1.timePoint ≤ GPSTime.maxValue.timePoint)
    (h2lo : GPSTime.minValue.timePoint ≤ t2.timePoint)
    (h2hi : t2.timePoint ≤ GPSTime.maxValue.timePoint)
    (hlt : t1.timePoint < t2.timePoint) :
    lexLt8 (GPSTime.components t1) (GPSTime.components t2) := by
  obtain ⟨ay1, ay2, am1, am2, ad1, ad2, ah1, ah2, ami1, ami2, as1, as2, au1, au2,
    ap1, ap2, atick⟩ := reverse_components t1 h1lo h1hi
  obtain ⟨by1, by2, bm1, bm2, bd1, bd2, bh1, bh2, bmi1, bmi2, bs1, bs2, bu1, bu2,
    bp1, bp2, btick⟩ := reverse_components t2 h2lo h2hi
  have tri : lexLt8 (GPSTime.components t1) (GPSTime.components t2) ∨
      (t1.year = t2.year ∧ t1.month = t2.month ∧ t1.day = t2.day ∧ t1.hour = t2.hour ∧
        t1.minute = t2.minute ∧ t1.second = t2.second ∧ t1.microsecond = t2.microsecond ∧
        t1.picosecond = t2.picosecond) ∨
      lexLt8 (GPSTime.components t2) (GPSTime.components t1) := by
    simp only [lexLt8, GPSTime.components]
    omega
  rcases tri with h | h | h
  · exact h
  · exfalso
    obtain ⟨e1, e2, e3, e4, e5, e6, e7, e8⟩ := h
    rw [← atick, ← btick, e1, e2, e3, e4, e5, e6, e7, e8] at hlt
    exact lt_irrefl _ hlt
  · exfalso
    have hmono := gps_lex_mono t2.year t2.month t2.day t2.hour t2.minute t2.second
      t2.microsecond t2.picosecond t1.year t1.month t1.day t1.hour t1.minute t1.second
      t1.microsecond t1.picosecond by1 by2 bm1 bm2 bd1 bd2 bh1 bh2 bmi1 bmi2 bs1 bs2
      bu1 bu2 bp1 bp2 ay1 ay2 am1 am2 ad1 ad2 ah1 ah2 ami1 ami2 as1 as2 au1 au2 ap1 ap2 h
    rw [atick, btick] at hmono
    omega

/-- Witness for C8 at tick counts 0 < 1. -/
theorem C8_tick_lex_monotone_witness :
    GPSTime.minValue.timePoint ≤ (0 : Int) ∧ (1 : Int) ≤ GPSTime.maxValue.timePoint ∧
    (0 : Int) < 1 ∧ lexLt8 (GPSTime.components ⟨0⟩) (GPSTime.components ⟨1⟩) :=
  ⟨by decide, by decide, by decide,
   C8_tick_lex_monotone ⟨0⟩ ⟨1⟩ (by decide) (by decide) (by decide) (by decide) (by decide)⟩

theorem dot_not_mem_pad (w n : Nat) : ('.' : Char) ∉ zeroPad w (natDigits n) := by
  intro hmem
  unfold zeroPad at hmem
  rcases List.mem_append.mp hmem with h | h
  · have := List.eq_of_mem_replicate h
    exact absurd this (by decide)
  · obtain ⟨hdig, -, -, -⟩ := natDigits_spec n
    have := hdig '.' h
    exact absurd this (by decide)

theorem dot_not_mem_date (t : GPSTime) :
    ('.' : Char) ∉ (zeroPad 4 (natDigits t.year.toNat) ++ ['-'] ++ zeroPad 2 (natDigits t.month.toNat) ++ ['-'] ++ zeroPad 2 (natDigits t.day.toNat) ++ ['T'] ++ zeroPad 2 (natDigits t.hour.toNat) ++ [':'] ++ zeroPad 2 (natDigits t.minute.toNat) ++ [':'] ++ zeroPad 2 (natDigits t.second.toNat)) := by
  intro hmem
  rcases List.mem_append.mp hmem with h | h
  · rcases List.mem_append.mp h with h | h
    · rcases List.mem_append.mp h with h | h
      · rcases List.mem_append.mp h with h | h
        · rcases List.mem_append.mp h with h | h
          · rcases List.mem_append.mp h with h | h
            · rcases List.mem_append.mp h with h | h
              · rcases List.mem_append.mp h with h | h
                · rcases List.mem_append.mp h with h | h
                  · rcases List.mem_append.mp h with h | h
                    · exact dot_not_mem_pad 4 t.year.toNat h
                    · simp at h
                  · exact dot_not_mem_pad 2 t.month.toNat h
                · simp at h
              · exact dot_not_mem_pad 2 t.day.toNat h
            · simp at h
          · exact dot_not_mem_pad 2 t.hour.toNat h
        · simp at h
      · exact dot_not_mem_pad 2 t.minute.toNat h
    · simp at h
  · exact dot_not_mem_pad 2 t.second.toNat h


/-- C6: formatting the instant (2000,1,2,3,4,5, microsecond 6, picosecond 7)
produces "2000-01-02T03:04:05.000006000007", formatting
(2000,1,2,3,4,5,0,0) produces "2000-01-02T03:04:05" with no dot, and in
general the formatted character list contains a dot exactly when some
subsecond component is nonzero. -/
theorem C6_format_instant :
    ((GPSTime.fromComponents 2000 1 2 3 4 5 6 7).map GPSTime.toString
      = .ok "2000-01-02T03:04:05.000006000007") ∧
    ((GPSTime.fromComponents 2000 1 2 3 4 5 0 0).map GPSTime.toString
      = .ok "2000-01-02T03:04:05") ∧
    (∀ t : GPSTime,
      ('.' : Char) ∈ GPSTime.toChars t ↔ ¬(t.microsecond = 0 ∧ t.picosecond = 0)) := by
  refine ⟨by decide, by decide, ?_⟩
  intro t
  by_cases hz : t.microsecond = 0 ∧ t.picosecond = 0
  · have he : GPSTime.toChars t = zeroPad 4 (natDigits t.year.toNat) ++ ['-'] ++ zeroPad 2 (natDigits t.month.toNat) ++ ['-'] ++ zeroPad 2 (natDigits t.day.toNat) ++ ['T'] ++ zeroPad 2 (natDigits t.hour.toNat) ++ [':'] ++ zeroPad 2 (natDigits t.minute.toNat) ++ [':'] ++ zeroPad 2 (natDigits t.second.toNat) := by
      show (if t.microsecond = 0 ∧ t.picosecond = 0 then
          zeroPad 4 (natDigits t.year.toNat) ++ ['-'] ++ zeroPad 2 (natDigits t.month.toNat) ++ ['-'] ++ zeroPad 2 (natDigits t.day.toNat) ++ ['T'] ++ zeroPad 2 (natDigits t.hour.toNat) ++ [':'] ++ zeroPad 2 (natDigits t.minute.toNat) ++ [':'] ++ zeroPad 2 (natDigits t.second.toNat)
        else
          zeroPad 4 (natDigits t.year.toNat) ++ ['-'] ++ zeroPad 2 (natDigits t.month.toNat) ++ ['-'] ++ zeroPad 2 (natDigits t.day.toNat) ++ ['T'] ++ zeroPad 2 (natDigits t.hour.toNat) ++ [':'] ++ zeroPad 2 (natDigits t.minute.toNat) ++ [':'] ++ zeroPad 2 (natDigits t.second.toNat) ++ ['.'] ++ trimTrailingZeros (zeroPad 6 (natDigits t.microsecond.toNat) ++ zeroPad 6 (natDigits t.picosecond.toNat)))
        = zeroPad 4 (natDigits t.year.toNat) ++ ['-'] ++ zeroPad 2 (natDigits t.month.toNat) ++ ['-'] ++ zeroPad 2 (natDigits t.day.toNat) ++ ['T'] ++ zeroPad 2 (natDigits t.hour.toNat) ++ [':'] ++ zeroPad 2 (natDigits t.minute.toNat) ++ [':'] ++ zeroPad 2 (natDigits t.second.toNat)
      rw [if_pos hz]
    rw [he]
    exact iff_of_false (dot_not_mem_date t) (not_not_intro hz)
  · have he : GPSTime.toChars t
        = zeroPad 4 (natDigits t.year.toNat) ++ ['-'] ++ zeroPad 2 (natDigits t.month.toNat) ++ ['-'] ++ zeroPad 2 (natDigits t.day.toNat) ++ ['T'] ++ zeroPad 2 (natDigits t.hour.toNat) ++ [':'] ++ zeroPad 2 (natDigits t.minute.toNat) ++ [':'] ++ zeroPad 2 (natDigits t.second.toNat) ++ ['.'] ++ trimTrailingZeros (zeroPad 6 (natDigits t.microsecond.toNat) ++ zeroPad 6 (natDigits t.picosecond.toNat)) := by
      show (if t.microsecond = 0 ∧ t.picosecond = 0 then
          zeroPad 4 (natDigits t.year.toNat) ++ ['-'] ++ zeroPad 2 (natDigits t.month.toNat) ++ ['-'] ++ zeroPad 2 (natDigits t.day.toNat) ++ ['T'] ++ zeroPad 2 (natDigits t.hour.toNat) ++ [':'] ++ zeroPad 2 (natDigits t.minute.toNat) ++ [':'] ++ zeroPad 2 (natDigits t.second.toNat)
        else
          zeroPad 4 (natDigits t.year.toNat) ++ ['-'] ++ zeroPad 2 (natDigits t.month.toNat) ++ ['-'] ++ zeroPad 2 (natDigits t.day.toNat) ++ ['T'] ++ zeroPad 2 (natDigits t.hour.toNat) ++ [':'] ++ zeroPad 2 (natDigits t.minute.toNat) ++ [':'] ++ zeroPad 2 (natDigits t.second.toNat) ++ ['.'] ++ trimTrailingZeros (zeroPad 6 (natDigits t.microsecond.toNat) ++ zeroPad 6 (natDigits t.picosecond.toNat)))
        = zeroPad 4 (natDigits t.year.toNat) ++ ['-'] ++ zeroPad 2 (natDigits t.month.toNat) ++ ['-'] ++ zeroPad 2 (natDigits t.day.toNat) ++ ['T'] ++ zeroPad 2 (natDigits t.hour.toNat) ++ [':'] ++ zeroPad 2 (natDigits t.minute.toNat) ++ [':'] ++ zeroPad 2 (natDigits t.second.toNat) ++ ['.'] ++ trimTrailingZeros (zeroPad 6 (natDigits t.microsecond.toNat) ++ zeroPad 6 (natDigits t.picosecond.toNat))
      rw [if_neg hz]
    rw [he]
    refine iff_of_true ?_ hz
    apply List.mem_append_left
    apply List.mem_append_right
    simp

/-- C9: TimeDelta stream formatting produces "12m34s" for 754 seconds and
"-1h0m0.000000000001s" for minus one hour and one picosecond, and every
negative TimeDelta formats with a leading minus sign. -/
theorem C9_timedelta_format :
    (TimeDelta.format (TimeDelta.seconds 754) = "12m34s") ∧
    (TimeDelta.format (-TimeDelta.hours 1 - TimeDelta.picoseconds 1)
      = "-1h0m0.000000000001s") ∧
    (∀ dt : TimeDelta, dt.count < 0 →
      (TimeDelta.format dt).toList.head? = some '-') := by
  refine ⟨by decide, by decide, ?_⟩
  intro dt hneg
  have hlt : dt < TimeDelta.zero := hneg
  unfold TimeDelta.format
  rw [show (String.mk (TimeDelta.toChars dt false false)).toList
      = TimeDelta.toChars dt false false from rfl]
  simp only [TimeDelta.toChars]
  rw [if_pos hlt]
  simp

/-- Witness for the negative-sign clause of C9 at one negative picosecond. -/
theorem C9_timedelta_format_witness :
    (TimeDelta.mk (-1)).count < 0 ∧
    (TimeDelta.format ⟨-1⟩).toList.head? = some '-' :=
  ⟨by decide, C9_timedelta_format.2.2 ⟨-1⟩ (by decide)⟩

/-- C7: the range-checked time-point constructor rejects one tick below
the minimum and one tick above the maximum, as the claim states; but the
in-place mutating operators (prefix increment and decrement, compound
addition and subtraction of a TimeDelta) perform no range check, so
applying them to a valid boundary value yields an object whose represented
date leaves the documented year interval [1, 9999] — the second half of
the claimed invariant does not hold in the code. -/
theorem C7_range_invariant :
    (GPSTime.fromTimePoint (GPSTime.minValue.timePoint - 1)
      = .error "input time point is outside of valid GPSTime range") ∧
    (GPSTime.fromTimePoint (GPSTime.maxValue.timePoint + 1)
      = .error "input time point is outside of valid GPSTime range") ∧
    ((GPSTime.preIncrement GPSTime.maxValue).year = 10000) ∧
    ((GPSTime.preDecrement GPSTime.minValue).year = 0) ∧
    ((GPSTime.addDelta GPSTime.maxValue (TimeDelta.picoseconds 1)).year = 10000) :=
  ⟨by decide, by decide, by decide, by decide, by decide⟩

/-- C10: the postfix increment and decrement operators leave their operand
unchanged and, when the neighbouring tick is inside the valid range,
return as the expression value the instant one tick after (respectively
before) the operand's prior value. -/
theorem C10_postfix_operators (t : GPSTime) :
    (GPSTime.minValue.timePoint ≤ t.timePoint + 1 →
      t.timePoint + 1 ≤ GPSTime.maxValue.timePoint →
      GPSTime.postIncrement t = .ok (t, ⟨t.timePoint + 1⟩)) ∧
    (GPSTime.minValue.timePoint ≤ t.timePoint - 1 →
      t.timePoint - 1 ≤ GPSTime.maxValue.timePoint →
      GPSTime.postDecrement t = .ok (t, ⟨t.timePoint - 1⟩)) := by
  constructor
  · intro h1 h2
    unfold GPSTime.postIncrement GPSTime.fromTimePoint
    rw [if_neg (by omega)]
  · intro h1 h2
    unfold GPSTime.postDecrement GPSTime.fromTimePoint
    rw [if_neg (by omega)]

/-- Witness for C10 at tick count 0. -/
theorem C10_postfix_operators_witness :
    GPSTime.postIncrement ⟨0⟩ = .ok (⟨0⟩, ⟨1⟩) ∧
    GPSTime.postDecrement ⟨0⟩ = .ok (⟨0⟩, ⟨-1⟩) :=
  ⟨(C10_postfix_operators ⟨0⟩).1 (by decide) (by decide),
   (C10_postfix_operators ⟨0⟩).2 (by decide) (by decide)⟩

theorem expectChar_some (c : Char) (l r : List Char) (h : expectChar c l = some r) :
    l = c :: r := by
  cases l with
  | nil => simp [expectChar] at h
  | cons c1 r1 =>
    have h2 : (if c1 == c then some r1 else none) = some r := h
    by_cases hc : c1 == c
    · rw [if_pos hc] at h2
      have hcc : c1 = c := eq_of_beq hc
      cases h2
      rw [hcc]
    · rw [if_neg hc] at h2
      cases h2

theorem readDigitsAux_some : ∀ (n : Nat) (l : List Char) (acc v : Nat) (r : List Char),
    readDigitsAux acc n l = some (v, r) →
    ∃ D, l = D ++ r ∧ D.length = n ∧ (∀ c ∈ D, c.isDigit = true) := by
  intro n
  induction n with
  | zero =>
    intro l acc v r h
    unfold readDigitsAux at h
    cases h
    exact ⟨[], by simp, rfl, by simp⟩
  | succ k ih =>
    intro l acc v r h
    cases l with
    | nil => simp [readDigitsAux] at h
    | cons c rest =>
      have h2 : (if c.isDigit then readDigitsAux (acc * 10 + (c.toNat - 48)) k rest
          else none) = some (v, r) := h
      by_cases hc : c.isDigit
      · rw [if_pos hc] at h2
        obtain ⟨D, hD1, hD2, hD3⟩ := ih rest (acc * 10 + (c.toNat - 48)) v r h2
        refine ⟨c :: D, by rw [List.cons_append, hD1], by simp [hD2], ?_⟩
        intro x hx
        rcases List.mem_cons.mp hx with hx | hx
        · rw [hx]; exact hc
        · exact hD3 x hx
      · rw [if_neg hc] at h2
        cases h2

theorem readDigits_some (n : Nat) (l : List Char) (v : Nat) (r : List Char)
    (h : readDigits n l = some (v, r)) :
    ∃ D, l = D ++ r ∧ D.length = n ∧ (∀ c ∈ D, c.isDigit = true) :=
  readDigitsAux_some n l 0 v r h

theorem exists_len4 (l : List Char) (h : l.length = 4) :
    ∃ a b c d, l = [a, b, c, d] := by
  rcases l with _|⟨a,_|⟨b,_|⟨c,_|⟨d,_|⟨e,l⟩⟩⟩⟩⟩ <;> simp_all

theorem exists_len2 (l : List Char) (h : l.length = 2) :
    ∃ a b, l = [a, b] := by
  rcases l with _|⟨a,_|⟨b,_|⟨c,l⟩⟩⟩ <;> simp_all


set_option maxHeartbeats 4000000 in
theorem parseChars_some_shape (l : List Char) (y mo d h mi s : Nat) (ds : List Char)
    (hp : GPSTime.parseChars l = some (y, mo, d, h, mi, s, ds)) :
    matchesDatetimePattern l = true := by
  unfold GPSTime.parseChars at hp
  rcases h1 : readDigits 4 l with _ | ⟨yv, r1⟩
  · rw [h1] at hp; simp at hp
  rw [h1] at hp
  simp only [Option.bind_eq_bind, Option.some_bind] at hp
  rcases h2 : expectChar '-' r1 with _ | r2
  · rw [h2] at hp; simp at hp
  rw [h2] at hp
  simp only [Option.some_bind] at hp
  rcases h3 : readDigits 2 r2 with _ | ⟨mov, r3⟩
  · rw [h3] at hp; simp at hp
  rw [h3] at hp
  simp only [Option.some_bind] at hp
  rcases h4 : expectChar '-' r3 with _ | r4
  · rw [h4] at hp; simp at hp
  rw [h4] at hp
  simp only [Option.some_bind] at hp
  rcases h5 : readDigits 2 r4 with _ | ⟨dv, r5⟩
  · rw [h5] at hp; simp at hp
  rw [h5] at hp
  simp only [Option.some_bind] at hp
  rcases h6 : expectChar 'T' r5 with _ | r6
  · rw [h6] at hp; simp at hp
  rw [h6] at hp
  simp only [Option.some_bind] at hp
  rcases h7 : readDigits 2 r6 with _ | ⟨hv, r7⟩
  · rw [h7] at hp; simp at hp
  rw [h7] at hp
  simp only [Option.some_bind] at hp
  rcases h8 : expectChar ':' r7 with _ | r8
  · rw [h8] at hp; simp at hp
  rw [h8] at hp
  simp only [Option.some_bind] at hp
  rcases h9 : readDigits 2 r8 with _ | ⟨miv, r9⟩
  · rw [h9] at hp; simp at hp
  rw [h9] at hp
  simp only [Option.some_bind] at hp
  rcases h10 : expectChar ':' r9 with _ | r10
  · rw [h10] at hp; simp at hp
  rw [h10] at hp
  simp only [Option.some_bind] at hp
  rcases h11 : readDigits 2 r10 with _ | ⟨sv, r11⟩
  · rw [h11] at hp; simp at hp
  rw [h11] at hp
  simp only [Option.some_bind] at hp
  obtain ⟨Y, hY1, hY2, hY3⟩ := readDigits_some 4 l yv r1 h1
  have hr1 := expectChar_some '-' r1 r2 h2
  obtain ⟨MO, hMO1, hMO2, hMO3⟩ := readDigits_some 2 r2 mov r3 h3
  have hr3 := expectChar_some '-' r3 r4 h4
  obtain ⟨D, hD1, hD2, hD3⟩ := readDigits_some 2 r4 dv r5 h5
  have hr5 := expectChar_some 'T' r5 r6 h6
  obtain ⟨H, hH1, hH2, hH3⟩ := readDigits_some 2 r6 hv r7 h7
  have hr7 := expectChar_some ':' r7 r8 h8
  obtain ⟨MI, hMI1, hMI2, hMI3⟩ := readDigits_some 2 r8 miv r9 h9
  have hr9 := expectChar_some ':' r9 r10 h10
  obtain ⟨S, hS1, hS2, hS3⟩ := readDigits_some 2 r10 sv r11 h11
  obtain ⟨c1, c2, c3, c4, hYe⟩ := exists_len4 Y hY2
  obtain ⟨c5, c6, hMOe⟩ := exists_len2 MO hMO2
  obtain ⟨c7, c8, hDe⟩ := exists_len2 D hD2
  obtain ⟨c9, c10, hHe⟩ := exists_len2 H hH2
  obtain ⟨c11, c12, hMIe⟩ := exists_len2 MI hMI2
  obtain ⟨c13, c14, hSe⟩ := exists_len2 S hS2
  subst hYe hMOe hDe hHe hMIe hSe
  subst hY1 hr1 hMO1 hr3 hD1 hr5 hH1 hr7 hMI1 hr9 hS1
  have d1 := hY3 c1 (by simp)
  have d2 := hY3 c2 (by simp)
  have d3 := hY3 c3 (by simp)
  have d4 := hY3 c4 (by simp)
  have d5 := hMO3 c5 (by simp)
  have d6 := hMO3 c6 (by simp)
  have d7 := hD3 c7 (by simp)
  have d8 := hD3 c8 (by simp)
  have d9 := hH3 c9 (by simp)
  have d10 := hH3 c10 (by simp)
  have d11 := hMI3 c11 (by simp)
  have d12 := hMI3 c12 (by simp)
  have d13 := hS3 c13 (by simp)
  have d14 := hS3 c14 (by simp)
  simp only [List.cons_append, List.nil_append]
  split at hp
  · simp [matchesDatetimePattern, d1, d2, d3, d4, d5, d6, d7, d8, d9, d10, d11, d12, d13, d14]
  · split at hp
    · rename_i hg
      simp [matchesDatetimePattern, d1, d2, d3, d4, d5, d6, d7, d8, d9, d10, d11, d12,
        d13, d14, hg.1, hg.2.1, hg.2.2]
    · simp at hp
  · simp at hp

theorem expectSep_some (l r : List Char) (h : expectSep l = some r) :
    ∃ sep, l = sep :: r ∧ ((sep == 'T') = true ∨ (sep == ' ') = true) := by
  cases l with
  | nil => simp [expectSep] at h
  | cons c rest =>
    have h2 : (if c == 'T' ∨ c == ' ' then some rest else none) = some r := h
    by_cases hc : (c == 'T') = true ∨ (c == ' ') = true
    · rw [if_pos hc] at h2
      cases h2
      exact ⟨c, rfl, hc⟩
    · rw [if_neg hc] at h2
      cases h2

set_option maxHeartbeats 4000000 in
theorem dtParse_some_shape (l : List Char) (y mo d h mi s : Nat) (ds : List Char)
    (hp : DateTime.parseChars l = some (y, mo, d, h, mi, s, ds)) :
    matchesDatetimePattern l = true := by
  unfold DateTime.parseChars at hp
  rcases h1 : readDigits 4 l with _ | ⟨yv, r1⟩
  · rw [h1] at hp; simp at hp
  rw [h1] at hp
  simp only [Option.bind_eq_bind, Option.some_bind] at hp
  rcases h2 : expectChar '-' r1 with _ | r2
  · rw [h2] at hp; simp at hp
  rw [h2] at hp
  simp only [Option.some_bind] at hp
  rcases h3 : readDigits 2 r2 with _ | ⟨mov, r3⟩
  · rw [h3] at hp; simp at hp
  rw [h3] at hp
  simp only [Option.some_bind] at hp
  rcases h4 : expectChar '-' r3 with _ | r4
  · rw [h4] at hp; simp at hp
  rw [h4] at hp
  simp only [Option.some_bind] at hp
  rcases h5 : readDigits 2 r4 with _ | ⟨dv, r5⟩
  · rw [h5] at hp; simp at hp
  rw [h5] at hp
  simp only [Option.some_bind] at hp
  rcases h6 : expectSep r5 with _ | r6
  · rw [h6] at hp; simp at hp
  rw [h6] at hp
  simp only [Option.some_bind] at hp
  rcases h7 : readDigits 2 r6 with _ | ⟨hv, r7⟩
  · rw [h7] at hp; simp at hp
  rw [h7] at hp
  simp only [Option.some_bind] at hp
  rcases h8 : expectChar ':' r7 with _ | r8
  · rw [h8] at hp; simp at hp
  rw [h8] at hp
  simp only [Option.some_bind] at hp
  rcases h9 : readDigits 2 r8 with _ | ⟨miv, r9⟩
  · rw [h9] at hp; simp at hp
  rw [h9] at hp
  simp only [Option.some_bind] at hp
  rcases h10 : expectChar ':' r9 with _ | r10
  · rw [h10] at hp; simp at hp
  rw [h10] at hp
  simp only [Option.some_bind] at hp
  rcases h11 : readDigits 2 r10 with _ | ⟨sv, r11⟩
  · rw [h11] at hp; simp at hp
  rw [h11] at hp
  simp only [Option.some_bind] at hp
  obtain ⟨Y, hY1, hY2, hY3⟩ := readDigits_some 4 l yv r1 h1
  have hr1 := expectChar_some '-' r1 r2 h2
  obtain ⟨MO, hMO1, hMO2, hMO3⟩ := readDigits_some 2 r2 mov r3 h3
  have hr3 := expectChar_some '-' r3 r4 h4
  obtain ⟨D, hD1, hD2, hD3⟩ := readDigits_some 2 r4 dv r5 h5
  obtain ⟨sep, hr5, hsep⟩ := expectSep_some r5 r6 h6
  obtain ⟨H, hH1, hH2, hH3⟩ := readDigits_some 2 r6 hv r7 h7
  have hr7 := expectChar_some ':' r7 r8 h8
  obtain ⟨MI, hMI1, hMI2, hMI3⟩ := readDigits_some 2 r8 miv r9 h9
  have hr9 := expectChar_some ':' r9 r10 h10
  obtain ⟨S, hS1, hS2, hS3⟩ := readDigits_some 2 r10 sv r11 h11
  obtain ⟨c1, c2, c3, c4, hYe⟩ := exists_len4 Y hY2
  obtain ⟨c5, c6, hMOe⟩ := exists_len2 MO hMO2
  obtain ⟨c7, c8, hDe⟩ := exists_len2 D hD2
  obtain ⟨c9, c10, hHe⟩ := exists_len2 H hH2
  obtain ⟨c11, c12, hMIe⟩ := exists_len2 MI hMI2
  obtain ⟨c13, c14, hSe⟩ := exists_len2 S hS2
  subst hYe hMOe hDe hHe hMIe hSe
  subst hY1 hr1 hMO1 hr3 hD1 hr5 hH1 hr7 hMI1 hr9 hS1
  have d1 := hY3 c1 (by simp)
  have d2 := hY3 c2 (by simp)
  have d3 := hY3 c3 (by simp)
  have d4 := hY3 c4 (by simp)
  have d5 := hMO3 c5 (by simp)
  have d6 := hMO3 c6 (by simp)
  have d7 := hD3 c7 (by simp)
  have d8 := hD3 c8 (by simp)
  have d9 := hH3 c9 (by simp)
  have d10 := hH3 c10 (by simp)
  have d11 := hMI3 c11 (by simp)
  have d12 := hMI3 c12 (by simp)
  have d13 := hS3 c13 (by simp)
  have d14 := hS3 c14 (by simp)
  simp only [List.cons_append, List.nil_append]
  split at hp
  · rcases hsep with hT | hSp
    · simp [matchesDatetimePattern, d1, d2, d3, d4, d5, d6, d7, d8, d9, d10, d11, d12,
        d13, d14, hT]
    · simp [matchesDatetimePattern, d1, d2, d3, d4, d5, d6, d7, d8, d9, d10, d11, d12,
        d13, d14, hSp]
  · split at hp
    · rename_i hg
      rcases hsep with hT | hSp
      · simp [matchesDatetimePattern, d1, d2, d3, d4, d5, d6, d7, d8, d9, d10, d11, d12,
          d13, d14, hT, hg.1, hg.2.1, hg.2.2]
      · simp [matchesDatetimePattern, d1, d2, d3, d4, d5, d6, d7, d8, d9, d10, d11, d12,
          d13, d14, hSp, hg.1, hg.2.1, hg.2.2]
    · simp at hp
  · simp at hp

/-- C5 (counterexample): the string "2000-13-01T00:00:00" matches the spec
grammar word for word, yet the v2 DateTime string constructor rejects it,
because the parsed month is out of range: parsing does not succeed exactly
when the grammar matches. -/
theorem C5_claim_counterexample :
    matchesDatetimePattern (String.toList "2000-13-01T00:00:00") = true ∧
    DateTime.fromString "2000-13-01T00:00:00" = .error "invalid month" :=
  ⟨by decide, by decide⟩

set_option maxHeartbeats 1000000 in
/-- C5 (amended, settled against the v2 DateTime parser; the v1 GPSTime
parser has no defined success path because it reads a match_results object
that regex_match never populated, which is reported as the C4 code bug): a
successful parse implies the input matches the grammar; input that does
not match the grammar is rejected, which covers under-padded fields such
as "2000-1-1" and 13 or more subsecond digits; the 'T' and ' ' separators
are both accepted; and a present subsecond field is right-padded with
zeros to 12 digits before the four-group split, so the subsecond groups
jointly recover the value of the padded digit string.  Success
additionally requires the parsed components to pass the range validation,
which the original claim omitted. -/
theorem C5_parse_grammar_amended :
    (∀ (s : String) (dt : DateTime), DateTime.fromString s = .ok dt →
      matchesDatetimePattern s.toList = true) ∧
    (∀ l : List Char, matchesDatetimePattern l = false →
      ∃ e, DateTime.fromString (String.mk l) = .error e) ∧
    (DateTime.fromString "2000-1-1T00:00:00" = .error "bad datetime string format") ∧
    (DateTime.fromString "2000-01-01T00:00:00.0000000000001"
      = .error "bad datetime string format") ∧
    (DateTime.fromString "2000-01-02 03:04:05"
      = DateTime.fromComponents 2000 1 2 3 4 5 0 0 0 0) ∧
    (∀ ds : List Char, ds.length ≤ 12 →
      digitsVal ((ds ++ List.replicate (12 - ds.length) '0').take 3) * 10 ^ 9
        + digitsVal (((ds ++ List.replicate (12 - ds.length) '0').drop 3).take 3) * 10 ^ 6
        + digitsVal (((ds ++ List.replicate (12 - ds.length) '0').drop 6).take 3) * 10 ^ 3
        + digitsVal ((ds ++ List.replicate (12 - ds.length) '0').drop 9)
        = digitsVal ds * 10 ^ (12 - ds.length)) := by
  refine ⟨?_, ?_, by decide, by decide, by decide, ?_⟩
  · intro s dt hok
    unfold DateTime.fromString at hok
    rcases hps : DateTime.parseChars s.toList with _ | ⟨yv, mov, dv, hv, miv, sv, ds2⟩
    · rw [hps] at hok
      cases hok
    · rw [hps] at hok
      exact dtParse_some_shape s.toList yv mov dv hv miv sv ds2 hps
  · intro l hfalse
    rcases hps : DateTime.parseChars l with _ | r
    · refine ⟨"bad datetime string format", ?_⟩
      unfold DateTime.fromString
      rw [show (String.mk l).toList = l from rfl, hps]
    · obtain ⟨yv, mov, dv, hv, miv, sv, ds2⟩ := r
      have := dtParse_some_shape l yv mov dv hv miv sv ds2 hps
      rw [this] at hfalse
      cases hfalse
  · intro ds hle
    have h1 : (ds ++ List.replicate (12 - ds.length) '0').length = 12 := by
      rw [List.length_append, List.length_replicate]
      omega
    have hd3 : ((ds ++ List.replicate (12 - ds.length) '0').drop 3).length = 9 := by
      rw [List.length_drop, h1]
    have hd6 : ((ds ++ List.replicate (12 - ds.length) '0').drop 6).length = 6 := by
      rw [List.length_drop, h1]
    have hd9 : ((ds ++ List.replicate (12 - ds.length) '0').drop 9).length = 3 := by
      rw [List.length_drop, h1]
    have e3 : ((ds ++ List.replicate (12 - ds.length) '0').drop 3).drop 3
        = (ds ++ List.replicate (12 - ds.length) '0').drop 6 := by
      rw [List.drop_drop]
    have e5 : ((ds ++ List.replicate (12 - ds.length) '0').drop 6).drop 3
        = (ds ++ List.replicate (12 - ds.length) '0').drop 9 := by
      rw [List.drop_drop]
    have vA : digitsVal (ds ++ List.replicate (12 - ds.length) '0')
        = digitsVal ((ds ++ List.replicate (12 - ds.length) '0').take 3) * 10 ^ 9
          + digitsVal ((ds ++ List.replicate (12 - ds.length) '0').drop 3) := by
      conv_lhs => rw [← List.take_append_drop 3 (ds ++ List.replicate (12 - ds.length) '0')]
      rw [digitsVal_append, hd3]
    have vB : digitsVal ((ds ++ List.replicate (12 - ds.length) '0').drop 3)
        = digitsVal (((ds ++ List.replicate (12 - ds.length) '0').drop 3).take 3) * 10 ^ 6
          + digitsVal ((ds ++ List.replicate (12 - ds.length) '0').drop 6) := by
      conv_lhs => rw [← List.take_append_drop 3 ((ds ++ List.replicate (12 - ds.length) '0').drop 3)]
      rw [digitsVal_append, e3, hd6]
    have vC : digitsVal ((ds ++ List.replicate (12 - ds.length) '0').drop 6)
        = digitsVal (((ds ++ List.replicate (12 - ds.length) '0').drop 6).take 3) * 10 ^ 3
          + digitsVal ((ds ++ List.replicate (12 - ds.length) '0').drop 9) := by
      conv_lhs => rw [← List.take_append_drop 3 ((ds ++ List.replicate (12 - ds.length) '0').drop 6)]
      rw [digitsVal_append, e5, hd9]
    have vD : digitsVal (ds ++ List.replicate (12 - ds.length) '0')
        = digitsVal ds * 10 ^ (12 - ds.length) := by
      rw [digitsVal_append, digitsVal_replicate_zero, List.length_replicate]
      omega
    have p9 : (10:Nat) ^ 9 = 1000000000 := by norm_num
    have p6 : (10:Nat) ^ 6 = 1000000 := by norm_num
    have p3 : (10:Nat) ^ 3 = 1000 := by norm_num
    rw [p9] at vA
    rw [p6] at vB
    rw [p3] at vC
    rw [p9, p6, p3]
    omega

/-- Witness for C5 (amended) at a successfully parsed string, a
non-matching string and a one-digit subsecond list. -/
theorem C5_parse_grammar_amended_witness :
    matchesDatetimePattern (String.toList "2000-01-02T03:04:05") = true ∧
    (∃ e, DateTime.fromString (String.mk (String.toList "x")) = .error e) ∧
    (digitsVal (((['5'] : List Char) ++ List.replicate (12 - (['5'] : List Char).length) '0').take 3) * 10 ^ 9
      + digitsVal ((((['5'] : List Char) ++ List.replicate (12 - (['5'] : List Char).length) '0').drop 3).take 3) * 10 ^ 6
      + digitsVal ((((['5'] : List Char) ++ List.replicate (12 - (['5'] : List Char).length) '0').drop 6).take 3) * 10 ^ 3
      + digitsVal (((['5'] : List Char) ++ List.replicate (12 - (['5'] : List Char).length) '0').drop 9)
      = digitsVal (['5'] : List Char) * 10 ^ (12 - (['5'] : List Char).length)) :=
  ⟨C5_parse_grammar_amended.1 "2000-01-02T03:04:05" ⟨2000, 1, 2, 3, 4, 5, 0, 0, 0, 0⟩
      (by decide),
   C5_parse_grammar_amended.2.1 (String.toList "x") (by decide),
   C5_parse_grammar_amended.2.2.2.2.2 ['5'] (by decide)⟩

end Caesar
